import Mathlib

/-!
Shallow embedding of the PRIVL1 cryptographic core (`crates/crypto`) and
verification of its specification claims.

Bytes are modelled as `List ℕ` (each entry one byte).  The BLAKE3 hash is
embedded executably for single-chunk messages (≤ 1024 bytes), which covers
every call site in this crate; the embedding matches the official BLAKE3
test vectors.  The pallas scalar field is `ZMod qScalar`.  The pallas curve
group is an external library; it is consumed through its algebraic
interface, so it is modelled as an arbitrary additive commutative group
with a `ZMod qScalar` action (the pallas group has prime order `qScalar`),
with the generator passed explicitly where `pallas::Point::generator()`
appears in the source.
-/

namespace Privl1

/-- Little-endian interpretation of a byte list. -/
def fromLeBytes (bs : List ℕ) : ℕ :=
  bs.foldr (fun b acc => b + 256 * acc) 0

/-- The `k` little-endian bytes of `v`. -/
def leBytes : ℕ → ℕ → List ℕ
  | 0, _ => []
  | k + 1, v => (v % 256) :: leBytes k (v / 256)

/-- UTF-8 bytes of an ASCII string (all domain tags in the source are ASCII). -/
def strBytes (s : String) : List ℕ :=
  s.toList.map Char.toNat

/-- Lower-case hex digit. -/
def hexChar (n : ℕ) : Char := if n < 10 then Char.ofNat (48 + n) else Char.ofNat (87 + n)

/-- Hex encoding of a byte list, as `hex::encode` renders it. -/
def hexEncode (bs : List ℕ) : String :=
  String.mk (bs.foldr (fun b acc => hexChar (b / 16) :: hexChar (b % 16) :: acc) [])

/-- 32-bit truncated addition. -/
def add32 (a b : ℕ) : ℕ := (a + b) % 4294967296

/-- 32-bit right rotation. -/
def rotr32 (x n : ℕ) : ℕ := ((x >>> n) ||| (x <<< (32 - n))) % 4294967296

/-- BLAKE3 initialization vector. -/
def blakeIV : List ℕ :=
  [0x6A09E667, 0xBB67AE85, 0x3C6EF372, 0xA54FF53A,
   0x510E527F, 0x9B05688C, 0x1F83D9AB, 0x5BE0CD19]

/-- One BLAKE3 quarter-round on four state words with two message words. -/
def gq (a b c d mx my : ℕ) : ℕ × ℕ × ℕ × ℕ :=
  let a1 := (a + b + mx) % 4294967296
  let d1 := rotr32 (d ^^^ a1) 16
  let c1 := (c + d1) % 4294967296
  let b1 := rotr32 (b ^^^ c1) 12
  let a2 := (a1 + b1 + my) % 4294967296
  let d2 := rotr32 (d1 ^^^ a2) 8
  let c2 := (c1 + d2) % 4294967296
  let b2 := rotr32 (b1 ^^^ c2) 7
  (a2, b2, c2, d2)

/-- The BLAKE3 compression function as straight-line word operations; the
message schedule permutation of each round is pre-applied in the generated
word indices.  Returns the full 16-word output state. -/
def blakeCompress (cv m : List ℕ) (counter blockLen flags : ℕ) : List ℕ :=
  let h0 := cv.getD 0 0
  let h1 := cv.getD 1 0
  let h2 := cv.getD 2 0
  let h3 := cv.getD 3 0
  let h4 := cv.getD 4 0
  let h5 := cv.getD 5 0
  let h6 := cv.getD 6 0
  let h7 := cv.getD 7 0
  let m0 := m.getD 0 0
  let m1 := m.getD 1 0
  let m2 := m.getD 2 0
  let m3 := m.getD 3 0
  let m4 := m.getD 4 0
  let m5 := m.getD 5 0
  let m6 := m.getD 6 0
  let m7 := m.getD 7 0
  let m8 := m.getD 8 0
  let m9 := m.getD 9 0
  let m10 := m.getD 10 0
  let m11 := m.getD 11 0
  let m12 := m.getD 12 0
  let m13 := m.getD 13 0
  let m14 := m.getD 14 0
  let m15 := m.getD 15 0
  let v0 := h0
  let v1 := h1
  let v2 := h2
  let v3 := h3
  let v4 := h4
  let v5 := h5
  let v6 := h6
  let v7 := h7
  let v8 := 0x6A09E667
  let v9 := 0xBB67AE85
  let v10 := 0x3C6EF372
  let v11 := 0xA54FF53A
  let v12 := counter % 4294967296
  let v13 := (counter >>> 32) % 4294967296
  let v14 := blockLen
  let v15 := flags
  -- round 1
  let t1 := gq v0 v4 v8 v12 m0 m1
  let v0 := t1.1
  let v4 := t1.2.1
  let v8 := t1.2.2.1
  let v12 := t1.2.2.2
  let t2 := gq v1 v5 v9 v13 m2 m3
  let v1 := t2.1
  let v5 := t2.2.1
  let v9 := t2.2.2.1
  let v13 := t2.2.2.2
  let t3 := gq v2 v6 v10 v14 m4 m5
  let v2 := t3.1
  let v6 := t3.2.1
  let v10 := t3.2.2.1
  let v14 := t3.2.2.2
  let t4 := gq v3 v7 v11 v15 m6 m7
  let v3 := t4.1
  let v7 := t4.2.1
  let v11 := t4.2.2.1
  let v15 := t4.2.2.2
  let t5 := gq v0 v5 v10 v15 m8 m9
  let v0 := t5.1
  let v5 := t5.2.1
  let v10 := t5.2.2.1
  let v15 := t5.2.2.2
  let t6 := gq v1 v6 v11 v12 m10 m11
  let v1 := t6.1
  let v6 := t6.2.1
  let v11 := t6.2.2.1
  let v12 := t6.2.2.2
  let t7 := gq v2 v7 v8 v13 m12 m13
  let v2 := t7.1
  let v7 := t7.2.1
  let v8 := t7.2.2.1
  let v13 := t7.2.2.2
  let t8 := gq v3 v4 v9 v14 m14 m15
  let v3 := t8.1
  let v4 := t8.2.1
  let v9 := t8.2.2.1
  let v14 := t8.2.2.2
  -- round 2
  let t9 := gq v0 v4 v8 v12 m2 m6
  let v0 := t9.1
  let v4 := t9.2.1
  let v8 := t9.2.2.1
  let v12 := t9.2.2.2
  let t10 := gq v1 v5 v9 v13 m3 m10
  let v1 := t10.1
  let v5 := t10.2.1
  let v9 := t10.2.2.1
  let v13 := t10.2.2.2
  let t11 := gq v2 v6 v10 v14 m7 m0
  let v2 := t11.1
  let v6 := t11.2.1
  let v10 := t11.2.2.1
  let v14 := t11.2.2.2
  let t12 := gq v3 v7 v11 v15 m4 m13
  let v3 := t12.1
  let v7 := t12.2.1
  let v11 := t12.2.2.1
  let v15 := t12.2.2.2
  let t13 := gq v0 v5 v10 v15 m1 m11
  let v0 := t13.1
  let v5 := t13.2.1
  let v10 := t13.2.2.1
  let v15 := t13.2.2.2
  let t14 := gq v1 v6 v11 v12 m12 m5
  let v1 := t14.1
  let v6 := t14.2.1
  let v11 := t14.2.2.1
  let v12 := t14.2.2.2
  let t15 := gq v2 v7 v8 v13 m9 m14
  let v2 := t15.1
  let v7 := t15.2.1
  let v8 := t15.2.2.1
  let v13 := t15.2.2.2
  let t16 := gq v3 v4 v9 v14 m15 m8
  let v3 := t16.1
  let v4 := t16.2.1
  let v9 := t16.2.2.1
  let v14 := t16.2.2.2
  -- round 3
  let t17 := gq v0 v4 v8 v12 m3 m4
  let v0 := t17.1
  let v4 := t17.2.1
  let v8 := t17.2.2.1
  let v12 := t17.2.2.2
  let t18 := gq v1 v5 v9 v13 m10 m12
  let v1 := t18.1
  let v5 := t18.2.1
  let v9 := t18.2.2.1
  let v13 := t18.2.2.2
  let t19 := gq v2 v6 v10 v14 m13 m2
  let v2 := t19.1
  let v6 := t19.2.1
  let v10 := t19.2.2.1
  let v14 := t19.2.2.2
  let t20 := gq v3 v7 v11 v15 m7 m14
  let v3 := t20.1
  let v7 := t20.2.1
  let v11 := t20.2.2.1
  let v15 := t20.2.2.2
  let t21 := gq v0 v5 v10 v15 m6 m5
  let v0 := t21.1
  let v5 := t21.2.1
  let v10 := t21.2.2.1
  let v15 := t21.2.2.2
  let t22 := gq v1 v6 v11 v12 m9 m0
  let v1 := t22.1
  let v6 := t22.2.1
  let v11 := t22.2.2.1
  let v12 := t22.2.2.2
  let t23 := gq v2 v7 v8 v13 m11 m15
  let v2 := t23.1
  let v7 := t23.2.1
  let v8 := t23.2.2.1
  let v13 := t23.2.2.2
  let t24 := gq v3 v4 v9 v14 m8 m1
  let v3 := t24.1
  let v4 := t24.2.1
  let v9 := t24.2.2.1
  let v14 := t24.2.2.2
  -- round 4
  let t25 := gq v0 v4 v8 v12 m10 m7
  let v0 := t25.1
  let v4 := t25.2.1
  let v8 := t25.2.2.1
  let v12 := t25.2.2.2
  let t26 := gq v1 v5 v9 v13 m12 m9
  let v1 := t26.1
  let v5 := t26.2.1
  let v9 := t26.2.2.1
  let v13 := t26.2.2.2
  let t27 := gq v2 v6 v10 v14 m14 m3
  let v2 := t27.1
  let v6 := t27.2.1
  let v10 := t27.2.2.1
  let v14 := t27.2.2.2
  let t28 := gq v3 v7 v11 v15 m13 m15
  let v3 := t28.1
  let v7 := t28.2.1
  let v11 := t28.2.2.1
  let v15 := t28.2.2.2
  let t29 := gq v0 v5 v10 v15 m4 m0
  let v0 := t29.1
  let v5 := t29.2.1
  let v10 := t29.2.2.1
  let v15 := t29.2.2.2
  let t30 := gq v1 v6 v11 v12 m11 m2
  let v1 := t30.1
  let v6 := t30.2.1
  let v11 := t30.2.2.1
  let v12 := t30.2.2.2
  let t31 := gq v2 v7 v8 v13 m5 m8
  let v2 := t31.1
  let v7 := t31.2.1
  let v8 := t31.2.2.1
  let v13 := t31.2.2.2
  let t32 := gq v3 v4 v9 v14 m1 m6
  let v3 := t32.1
  let v4 := t32.2.1
  let v9 := t32.2.2.1
  let v14 := t32.2.2.2
  -- round 5
  let t33 := gq v0 v4 v8 v12 m12 m13
  let v0 := t33.1
  let v4 := t33.2.1
  let v8 := t33.2.2.1
  let v12 := t33.2.2.2
  let t34 := gq v1 v5 v9 v13 m9 m11
  let v1 := t34.1
  let v5 := t34.2.1
  let v9 := t34.2.2.1
  let v13 := t34.2.2.2
  let t35 := gq v2 v6 v10 v14 m15 m10
  let v2 := t35.1
  let v6 := t35.2.1
  let v10 := t35.2.2.1
  let v14 := t35.2.2.2
  let t36 := gq v3 v7 v11 v15 m14 m8
  let v3 := t36.1
  let v7 := t36.2.1
  let v11 := t36.2.2.1
  let v15 := t36.2.2.2
  let t37 := gq v0 v5 v10 v15 m7 m2
  let v0 := t37.1
  let v5 := t37.2.1
  let v10 := t37.2.2.1
  let v15 := t37.2.2.2
  let t38 := gq v1 v6 v11 v12 m5 m3
  let v1 := t38.1
  let v6 := t38.2.1
  let v11 := t38.2.2.1
  let v12 := t38.2.2.2
  let t39 := gq v2 v7 v8 v13 m0 m1
  let v2 := t39.1
  let v7 := t39.2.1
  let v8 := t39.2.2.1
  let v13 := t39.2.2.2
  let t40 := gq v3 v4 v9 v14 m6 m4
  let v3 := t40.1
  let v4 := t40.2.1
  let v9 := t40.2.2.1
  let v14 := t40.2.2.2
  -- round 6
  let t41 := gq v0 v4 v8 v12 m9 m14
  let v0 := t41.1
  let v4 := t41.2.1
  let v8 := t41.2.2.1
  let v12 := t41.2.2.2
  let t42 := gq v1 v5 v9 v13 m11 m5
  let v1 := t42.1
  let v5 := t42.2.1
  let v9 := t42.2.2.1
  let v13 := t42.2.2.2
  let t43 := gq v2 v6 v10 v14 m8 m12
  let v2 := t43.1
  let v6 := t43.2.1
  let v10 := t43.2.2.1
  let v14 := t43.2.2.2
  let t44 := gq v3 v7 v11 v15 m15 m1
  let v3 := t44.1
  let v7 := t44.2.1
  let v11 := t44.2.2.1
  let v15 := t44.2.2.2
  let t45 := gq v0 v5 v10 v15 m13 m3
  let v0 := t45.1
  let v5 := t45.2.1
  let v10 := t45.2.2.1
  let v15 := t45.2.2.2
  let t46 := gq v1 v6 v11 v12 m0 m10
  let v1 := t46.1
  let v6 := t46.2.1
  let v11 := t46.2.2.1
  let v12 := t46.2.2.2
  let t47 := gq v2 v7 v8 v13 m2 m6
  let v2 := t47.1
  let v7 := t47.2.1
  let v8 := t47.2.2.1
  let v13 := t47.2.2.2
  let t48 := gq v3 v4 v9 v14 m4 m7
  let v3 := t48.1
  let v4 := t48.2.1
  let v9 := t48.2.2.1
  let v14 := t48.2.2.2
  -- round 7
  let t49 := gq v0 v4 v8 v12 m11 m15
  let v0 := t49.1
  let v4 := t49.2.1
  let v8 := t49.2.2.1
  let v12 := t49.2.2.2
  let t50 := gq v1 v5 v9 v13 m5 m0
  let v1 := t50.1
  let v5 := t50.2.1
  let v9 := t50.2.2.1
  let v13 := t50.2.2.2
  let t51 := gq v2 v6 v10 v14 m1 m9
  let v2 := t51.1
  let v6 := t51.2.1
  let v10 := t51.2.2.1
  let v14 := t51.2.2.2
  let t52 := gq v3 v7 v11 v15 m8 m6
  let v3 := t52.1
  let v7 := t52.2.1
  let v11 := t52.2.2.1
  let v15 := t52.2.2.2
  let t53 := gq v0 v5 v10 v15 m14 m10
  let v0 := t53.1
  let v5 := t53.2.1
  let v10 := t53.2.2.1
  let v15 := t53.2.2.2
  let t54 := gq v1 v6 v11 v12 m2 m12
  let v1 := t54.1
  let v6 := t54.2.1
  let v11 := t54.2.2.1
  let v12 := t54.2.2.2
  let t55 := gq v2 v7 v8 v13 m3 m4
  let v2 := t55.1
  let v7 := t55.2.1
  let v8 := t55.2.2.1
  let v13 := t55.2.2.2
  let t56 := gq v3 v4 v9 v14 m7 m13
  let v3 := t56.1
  let v4 := t56.2.1
  let v9 := t56.2.2.1
  let v14 := t56.2.2.2
  [v0 ^^^ v8,
   v1 ^^^ v9,
   v2 ^^^ v10,
   v3 ^^^ v11,
   v4 ^^^ v12,
   v5 ^^^ v13,
   v6 ^^^ v14,
   v7 ^^^ v15,
   v8 ^^^ h0,
   v9 ^^^ h1,
   v10 ^^^ h2,
   v11 ^^^ h3,
   v12 ^^^ h4,
   v13 ^^^ h5,
   v14 ^^^ h6,
   v15 ^^^ h7]

/-- A padded 64-byte block as 16 little-endian 32-bit words. -/
def bytesToWords (bs : List ℕ) : List ℕ :=
  (List.range 16).map (fun i => fromLeBytes ((bs.drop (4 * i)).take 4))

/-- Zero-pad a block to 64 bytes. -/
def padTo64 (bs : List ℕ) : List ℕ :=
  bs ++ List.replicate (64 - bs.length) 0

/-- Split a message into 64-byte blocks paired with their real lengths
(fuel-driven recursion; the fuel passed by `blake3Hash` always suffices). -/
def toBlocks : ℕ → List ℕ → List (List ℕ × ℕ)
  | 0, _ => []
  | fuel + 1, bs =>
    if bs.length ≤ 64 then [(padTo64 bs, bs.length)]
    else (bs.take 64, 64) :: toBlocks fuel (bs.drop 64)

/-- Fold the chunk's blocks through the compression function; the final block
carries the CHUNK_END and ROOT flags and yields the 8-word digest. -/
def chunkFold (cv : List ℕ) (first : Bool) : List (List ℕ × ℕ) → List ℕ
  | [] => cv
  | [(b, len)] =>
    let flags := (if first then 1 else 0) + 2 + 8
    (blakeCompress cv (bytesToWords b) 0 len flags).take 8
  | (b, len) :: rest =>
    let flags := if first then 1 else 0
    chunkFold ((blakeCompress cv (bytesToWords b) 0 len flags).take 8) false rest

/-- 8 state words to 32 little-endian digest bytes. -/
def wordsToBytes (ws : List ℕ) : List ℕ :=
  ws.foldr (fun w acc => leBytes 4 w ++ acc) []

/-- BLAKE3 hash of a message that fits in a single chunk (≤ 1024 bytes), which
covers every message hashed by this crate.  Matches the official BLAKE3 test
vectors for the empty, 1-byte and 65-byte inputs. -/
def blake3Hash (input : List ℕ) : List ℕ :=
  wordsToBytes (chunkFold blakeIV true (toBlocks (input.length / 64 + 1) input))

/-- `DomainSeparatedHasher::new(domain)` feeds the domain tag and a null byte
before the data, and BLAKE3 streaming equals hashing the concatenation. -/
def domainHash (dom : String) (data : List ℕ) : List ℕ :=
  blake3Hash (strBytes dom ++ [0] ++ data)

/-- The error enum of `lib.rs` (`CryptoError`), embedded variant for variant. -/
inductive CryptoError where
  | InvalidKey : CryptoError
  | InvalidCommitment : CryptoError
  | InvalidProof : CryptoError
  | MerkleError : String → CryptoError
  | SerializationError : String → CryptoError
  | OperationFailed : String → CryptoError
deriving DecidableEq

/-- Order of the pallas scalar field (`pallas::Scalar`). -/
def qScalar : ℕ := 0x40000000000000000000000000000000224698fc0994a8dd8c46eb2100000001

/-- `pallas::Scalar`: the field of integers modulo `qScalar`. -/
abbrev Scalar := ZMod qScalar

/-- `Scalar::zero()`. -/
def Scalar.zero : Scalar := 0

/-- `Scalar::from_bytes`: canonical little-endian decoding; `from_repr`
rejects any 32-byte value that is not a reduced representative. -/
def Scalar.from_bytes (bytes : List ℕ) : Except CryptoError Scalar :=
  if fromLeBytes bytes < qScalar then .ok ((fromLeBytes bytes : ℕ) : Scalar)
  else .error CryptoError.InvalidKey

/-- `Scalar::to_bytes`: canonical little-endian encoding. -/
def Scalar.to_bytes (s : Scalar) : List ℕ := leBytes 32 s.val

/-! ## Merkle accumulator (`merkle.rs`) -/

/-- `TREE_DEPTH`. -/
def TREE_DEPTH : ℕ := 32

/-- `merkle_hash` from `hash.rs`: BLAKE3 of the two nodes concatenated. -/
def merkle_hash (left right : List ℕ) : List ℕ := blake3Hash (left ++ right)

/-- `MerkleRoot`. -/
structure MerkleRoot where
  bytes : List ℕ
deriving DecidableEq

/-- `MerkleProof`. -/
structure MerkleProof where
  path : List (List ℕ)
  position : ℕ
deriving DecidableEq

/-- The sibling-folding loop of `MerkleProof::verify`. -/
def verifyFold : List (List ℕ) → ℕ → List ℕ → List ℕ
  | [], _, current => current
  | sibling :: rest, index, current =>
    let current2 := if index % 2 = 0 then merkle_hash current sibling
      else merkle_hash sibling current
    verifyFold rest (index >>> 1) current2

/-- `MerkleProof::verify`. -/
def MerkleProof.verify (p : MerkleProof) (leaf : List ℕ) (root : MerkleRoot) : Bool :=
  if p.path.length ≠ TREE_DEPTH then false
  else verifyFold p.path p.position leaf == root.bytes

/-- `IncrementalMerkleTree`. -/
structure IncrementalMerkleTree where
  num_leaves : ℕ
  frontier : List (List ℕ)
  cached_roots : List ((ℕ × ℕ) × List ℕ)
  empty_hashes : List (List ℕ)

/-- The `empty_hashes` table built by `IncrementalMerkleTree::new`:
level 0 is the all-zero leaf, level k+1 hashes level k with itself. -/
def emptyHashes : ℕ → List (List ℕ)
  | 0 => [List.replicate 32 0]
  | k + 1 =>
    let prev := emptyHashes k
    let child := prev.getD k []
    prev ++ [merkle_hash child child]

/-- `IncrementalMerkleTree::new`. -/
def IncrementalMerkleTree.new : IncrementalMerkleTree :=
  { num_leaves := 0, frontier := [], cached_roots := [],
    empty_hashes := emptyHashes TREE_DEPTH }

/-- The level loop of `update_frontier`: `some c` models the `break` after
pushing `c` onto `new_frontier`; `none` models falling off the loop. -/
def updateFrontierGo (frontier eh : List (List ℕ)) :
    List ℕ → ℕ → List ℕ → Option (List ℕ)
  | [], _, _ => none
  | level :: rest, index, current =>
    if index % 2 = 0 then some current
    else
      let sibling := if level < frontier.length then frontier.getD level []
        else eh.getD level []
      updateFrontierGo frontier eh rest (index >>> 1) (merkle_hash sibling current)

/-- `IncrementalMerkleTree::update_frontier` (the `truncate`/`extend` step
included: the loop pushes at most one node before breaking). -/
def IncrementalMerkleTree.update_frontier (t : IncrementalMerkleTree) (leaf : List ℕ) :
    List (List ℕ) :=
  let new_frontier : List (List ℕ) :=
    match updateFrontierGo t.frontier t.empty_hashes (List.range TREE_DEPTH)
        t.num_leaves leaf with
    | some c => [c]
    | none => []
  if new_frontier.isEmpty then t.frontier
  else t.frontier.take (new_frontier.length - 1) ++ new_frontier

/-- `IncrementalMerkleTree::append`, returning the mutated tree and the
result (`&mut self` is modelled by state passing). -/
def IncrementalMerkleTree.append (t : IncrementalMerkleTree) (leaf : List ℕ) :
    IncrementalMerkleTree × Except CryptoError ℕ :=
  let position := t.num_leaves
  if position ≥ 2 ^ TREE_DEPTH then
    (t, .error (CryptoError.MerkleError ("Tree is full")))
  else
    ({ t with frontier := t.update_frontier leaf, num_leaves := t.num_leaves + 1 },
     .ok position)

/-- The level loop of `IncrementalMerkleTree::root`. -/
def rootLoop (frontier eh : List (List ℕ)) (ci : ℕ) :
    List ℕ → List ℕ → List ℕ
  | [], current => current
  | level :: rest, current =>
    let current2 :=
      if level < frontier.length - 1 then
        if (ci >>> (level + 1)) % 2 = 1 then
          let sibling := if level + 1 < frontier.length then frontier.getD (level + 1) []
            else eh.getD (level + 1) []
          merkle_hash sibling current
        else current
      else
        let sibling := eh.getD level []
        if (ci >>> level) % 2 = 0 then merkle_hash current sibling
        else merkle_hash sibling current
    rootLoop frontier eh ci rest current2

/-- `IncrementalMerkleTree::root`. -/
def IncrementalMerkleTree.root (t : IncrementalMerkleTree) : MerkleRoot :=
  if t.num_leaves = 0 then ⟨t.empty_hashes.getD TREE_DEPTH []⟩
  else
    ⟨rootLoop t.frontier t.empty_hashes (t.num_leaves - 1) (List.range TREE_DEPTH)
      (t.frontier.getD 0 [])⟩

/-- `IncrementalMerkleTree::get_node` (every path returns `Ok`, so the
`Result` wrapper is dropped). -/
def IncrementalMerkleTree.get_node (t : IncrementalMerkleTree) (level : ℕ) (index : ℕ) :
    List ℕ :=
  match t.cached_roots.lookup (level, index) with
  | some hash => hash
  | none =>
    if level < t.frontier.length ∧ index = (t.num_leaves - 1) >>> level then
      t.frontier.getD level []
    else
      t.empty_hashes.getD level []

/-- The level loop of `IncrementalMerkleTree::prove`. -/
def proveLoop (t : IncrementalMerkleTree) : List ℕ → ℕ → List (List ℕ)
  | [], _ => []
  | level :: rest, current_index =>
    let sibling_index := current_index ^^^ 1
    let sibling := if sibling_index < t.num_leaves then t.get_node level sibling_index
      else t.empty_hashes.getD level []
    sibling :: proveLoop t rest (current_index >>> 1)

/-- `IncrementalMerkleTree::prove`. -/
def IncrementalMerkleTree.prove (t : IncrementalMerkleTree) (position : ℕ) :
    Except CryptoError MerkleProof :=
  if position ≥ t.num_leaves then .error (CryptoError.MerkleError ("Position out of bounds"))
  else .ok { path := proveLoop t (List.range TREE_DEPTH) position, position := position }

/-- Append a list of leaves in order, discarding the returned positions. -/
def appendAll (t : IncrementalMerkleTree) (leaves : List (List ℕ)) : IncrementalMerkleTree :=
  leaves.foldl (fun acc leaf => (acc.append leaf).1) t

end Privl1

namespace Privl1

/-! ## Algebraic layer (`point.rs`, `scalar.rs`)

The pallas group itself is an external library consumed as an opaque
algebraic capability: an additive commutative group with a scalar action of
`ZMod qScalar` (the group has prime order `qScalar`).  The library's fixed
generator is passed explicitly wherever `pallas::Point::generator()` occurs. -/

variable {G : Type} [AddCommGroup G] [Module (ZMod qScalar) G]

/-- `Point`: newtype around a pallas group element. -/
structure Point (G : Type) where
  point : G
deriving DecidableEq

/-- `Point::identity`. -/
def Point.identity : Point G := ⟨0⟩

/-- `Point::generator`, with the library's fixed generator passed in. -/
def Point.generator (gen : G) : Point G := ⟨gen⟩

/-- `Point::from_bytes`: the source returns `Ok(Self(pallas::Point::zero()))`
for every input. -/
def Point.from_bytes (_bytes : List ℕ) : Except CryptoError (Point G) :=
  .ok ⟨0⟩

/-- `Point::to_bytes`: the source returns `[0u8; 32]` for every point. -/
def Point.to_bytes (_p : Point G) : List ℕ := List.replicate 32 0

/-- `Point::mul`: scalar multiplication. -/
def Point.mul (p : Point G) (s : Scalar) : Point G := ⟨s • p.point⟩

/-- `Point::is_identity`. -/
def Point.is_identity [DecidableEq G] (p : Point G) : Bool := decide (p.point = 0)

instance : Add (Point G) := ⟨fun a b => ⟨a.point + b.point⟩⟩

instance : Sub (Point G) := ⟨fun a b => ⟨a.point - b.point⟩⟩

/-! ## Commitments (`commitment.rs`) -/

/-- `Commitment`: a single group element. -/
structure Commitment (G : Type) where
  point : G
deriving DecidableEq

/-- `PedersenCommitment`: the two generators. -/
structure PedersenCommitment (G : Type) where
  g : G
  h : G

/-- `PedersenCommitment::new`: `g` is the curve generator and `h` is obtained
by doubling `g` 128 times. -/
def PedersenCommitment.new (gen : G) : PedersenCommitment G :=
  { g := gen, h := (fun p => p + p)^[128] gen }

/-- `PedersenCommitment::commit_with_blinding`: `C = v·G + r·H`, with the
`u64` value carried into the scalar field. -/
def PedersenCommitment.commit_with_blinding (pc : PedersenCommitment G)
    (value : ℕ) (blinding : Scalar) : Commitment G :=
  ⟨((value : ℕ) : Scalar) • pc.g + blinding • pc.h⟩

/-- `PedersenCommitment::verify`: recompute and compare. -/
def PedersenCommitment.verify [DecidableEq G] (pc : PedersenCommitment G)
    (c : Commitment G) (value : ℕ) (blinding : Scalar) : Bool :=
  decide (c = pc.commit_with_blinding value blinding)

/-- `PedersenCommitment::zero`. -/
def PedersenCommitment.zero : Commitment G := ⟨0⟩

/-- `Commitment::to_bytes`: the source leaves the buffer untouched and
returns `[0u8; 32]` for every commitment. -/
def Commitment.to_bytes (_c : Commitment G) : List ℕ := List.replicate 32 0

/-- `Commitment::from_bytes`: the source returns the identity point for
every input. -/
def Commitment.from_bytes (_bytes : List ℕ) : Except CryptoError (Commitment G) :=
  .ok ⟨0⟩

instance : Add (Commitment G) := ⟨fun a b => ⟨a.point + b.point⟩⟩

instance : Sub (Commitment G) := ⟨fun a b => ⟨a.point - b.point⟩⟩

/-! ## Key hierarchy (`keys.rs`) -/

/-- `SpendingKey`. -/
structure SpendingKey where
  sk : Scalar

/-- `SpendingKey::from_seed`: domain-separated BLAKE3 digest, decoded with
`Scalar::from_bytes` and defaulted to zero by `unwrap_or`. -/
def SpendingKey.from_seed (seed : List ℕ) : SpendingKey :=
  let hash := domainHash ("PRIVL1_SPENDING_KEY") seed
  { sk := match Scalar.from_bytes hash with
          | .ok s => s
          | .error _ => Scalar.zero }

/-- `PublicKey`. -/
structure PublicKey (G : Type) where
  point : Point G
deriving DecidableEq

/-- `PublicKey::from_spending_key`: `pk = sk · generator`. -/
def PublicKey.from_spending_key (gen : G) (k : SpendingKey) : PublicKey G :=
  ⟨(Point.generator gen).mul k.sk⟩

/-- `PublicKey::from_bytes`. -/
def PublicKey.from_bytes (bytes : List ℕ) : Except CryptoError (PublicKey G) :=
  (Point.from_bytes bytes).map (fun p => ⟨p⟩)

/-- `PublicKey::to_bytes`. -/
def PublicKey.to_bytes (pk : PublicKey G) : List ℕ := pk.point.to_bytes

/-- `Signature`. -/
structure Signature (G : Type) where
  r : Point G
  s : Scalar
deriving DecidableEq

/-- `SpendingKey::sign`: the source ignores the message and returns the
fixed pair `(generator, sk)`. -/
def SpendingKey.sign (gen : G) (k : SpendingKey) (_message : List ℕ) : Signature G :=
  { r := Point.generator gen, s := k.sk }

/-- `PublicKey::verify`: the source returns `true` unconditionally. -/
def PublicKey.verify (_pk : PublicKey G) (_message : List ℕ) (_signature : Signature G) :
    Bool :=
  true

/-- `ViewingKey`. -/
structure ViewingKey where
  ivk : Scalar
  ovk : Scalar

/-- `ViewingKey::derive_from_spending_key`: two domain-separated digests of
the spending-key bytes, each decoded with `unwrap_or(zero)`. -/
def ViewingKey.derive_from_spending_key (k : SpendingKey) : ViewingKey :=
  let sk_bytes := k.sk.to_bytes
  let ivk_hash := domainHash ("PRIVL1_DERIVE_IVK") sk_bytes
  let ovk_hash := domainHash ("PRIVL1_DERIVE_OVK") sk_bytes
  { ivk := match Scalar.from_bytes ivk_hash with
           | .ok s => s
           | .error _ => Scalar.zero,
    ovk := match Scalar.from_bytes ovk_hash with
           | .ok s => s
           | .error _ => Scalar.zero }

/-! ## Nullifiers (`nullifier.rs`) -/

/-- `Nullifier`: 32 opaque bytes. -/
structure Nullifier where
  bytes : List ℕ
deriving DecidableEq

/-- `Nullifier::to_hex`. -/
def Nullifier.to_hex (n : Nullifier) : String := hexEncode n.bytes

/-- `NullifierDerivingKey`. -/
structure NullifierDerivingKey where
  nk : Scalar

/-- `NullifierDerivingKey::from_seed`: domain-separated digest decoded with
`unwrap_or(zero)`. -/
def NullifierDerivingKey.from_seed (seed : List ℕ) : NullifierDerivingKey :=
  let hash := domainHash ("PRIVL1_NULLIFIER_KEY") seed
  { nk := match Scalar.from_bytes hash with
          | .ok s => s
          | .error _ => Scalar.zero }

/-! ## Notes (`note.rs`) -/

/-- `Note`.  The cached commitment is the test-oriented shortcut the source
stores in `Note::new`. -/
structure Note (G : Type) where
  value : ℕ
  asset_id : List ℕ
  owner : PublicKey G
  randomness : Scalar
  memo : Option (List ℕ)
  cached_commitment : Option (Commitment G)

/-- `Note::new`: the sampled `thread_rng` blinding is passed explicitly; the
owner is `PublicKey::from_bytes([0u8; 32]).unwrap()`, i.e. the identity. -/
def Note.new (value : ℕ) (commitment : Commitment G) (asset_id : List ℕ)
    (randomness : Scalar) : Note G :=
  { value := value, asset_id := asset_id, owner := ⟨⟨0⟩⟩, randomness := randomness,
    memo := none, cached_commitment := some commitment }

/-- `Note::dummy`. -/
def Note.dummy : Note G :=
  { value := 0, asset_id := List.replicate 32 0, owner := ⟨⟨0⟩⟩,
    randomness := Scalar.zero, memo := none, cached_commitment := none }

/-- `Note::is_dummy`: checks only the value and the blinding factor. -/
def Note.is_dummy (n : Note G) : Bool :=
  n.value == 0 && decide (n.randomness = Scalar.zero)

/-- `NoteCommitment`. -/
structure NoteCommitment (G : Type) where
  inner : Commitment G
  asset_id : List ℕ
deriving DecidableEq

/-- `NoteCommitment::to_bytes`: commitment bytes followed by the asset id. -/
def NoteCommitment.to_bytes (nc : NoteCommitment G) : List ℕ :=
  nc.inner.to_bytes ++ nc.asset_id

/-- `Note::commitment`: the cached commitment if present, otherwise a fresh
Pedersen commitment to `(value, randomness)`. -/
def Note.commitment (gen : G) (n : Note G) : NoteCommitment G :=
  let c := match n.cached_commitment with
    | some cached => cached
    | none => (PedersenCommitment.new gen).commit_with_blinding n.value n.randomness
  { inner := c, asset_id := n.asset_id }

/-- `NullifierDerivingKey::derive_nullifier`:
`Hash(domain ‖ nk_bytes ‖ note_commitment_bytes ‖ position_le_bytes)`. -/
def NullifierDerivingKey.derive_nullifier (gen : G) (k : NullifierDerivingKey)
    (note : Note G) (position : ℕ) : Nullifier :=
  ⟨domainHash ("PRIVL1_NULLIFIER")
    (k.nk.to_bytes ++ (note.commitment gen).to_bytes ++ leBytes 8 position)⟩

/-- `NullifierSet`: the `HashSet` is modelled as a finite set. -/
structure NullifierSet where
  spent : Finset Nullifier

/-- `NullifierSet::new`. -/
def NullifierSet.new : NullifierSet := ⟨∅⟩

/-- `NullifierSet::is_spent`. -/
def NullifierSet.is_spent (s : NullifierSet) (n : Nullifier) : Bool :=
  decide (n ∈ s.spent)

/-- `NullifierSet::len`. -/
def NullifierSet.len (s : NullifierSet) : ℕ := s.spent.card

/-- `NullifierSet::spend` (`&mut self` modelled by returning the new state
next to the `Result`). -/
def NullifierSet.spend (s : NullifierSet) (n : Nullifier) :
    NullifierSet × Except CryptoError Unit :=
  if s.is_spent n then
    (s, .error (CryptoError.OperationFailed ("Double spend detected")))
  else
    (⟨insert n s.spent⟩, .ok ())

/-- `NullifierSet::spend_batch`: the first loop (check every nullifier
against the current set, returning early on a hit) is `List.find?`; only
when it finds nothing does the second loop insert them all. -/
def NullifierSet.spend_batch (s : NullifierSet) (ns : List Nullifier) :
    NullifierSet × Except CryptoError Unit :=
  match ns.find? (fun n => s.is_spent n) with
  | some n =>
    (s, .error (CryptoError.OperationFailed ("Double spend detected: " ++ n.to_hex)))
  | none =>
    (⟨ns.foldl (fun acc n => insert n acc) s.spent⟩, .ok ())

/-! ## Proof envelope (`proof.rs`) -/

/-- `ProofSystem`. -/
inductive ProofSystem where
  | Halo2 : ProofSystem
  | Groth16 : ProofSystem
  | Bulletproofs : ProofSystem
deriving DecidableEq

/-- `VerificationKey`. -/
structure VerificationKey where
  key_type : ProofSystem
  key_data : List ℕ
  key_hash : List ℕ
deriving DecidableEq

/-- `VerificationKey::new`: the id is the BLAKE3 hash of the key bytes. -/
def VerificationKey.new (key_type : ProofSystem) (key_data : List ℕ) : VerificationKey :=
  { key_type := key_type, key_data := key_data, key_hash := blake3Hash key_data }

/-- `VerificationKey::id`. -/
def VerificationKey.id (vk : VerificationKey) : List ℕ := vk.key_hash

/-- `Halo2Proof`. -/
structure Halo2Proof where
  proof : List ℕ
  public_inputs : List (List ℕ)
  vk_id : List ℕ
deriving DecidableEq

/-- `Halo2Proof::verify`: the source returns `Ok(true)` unconditionally. -/
def Halo2Proof.verify (_p : Halo2Proof) (_vk : VerificationKey) :
    Except CryptoError Bool :=
  .ok true

/-- `ProofVerifier`: the `HashMap` of verification keys as a lookup function. -/
structure ProofVerifier where
  vks : List ℕ → Option VerificationKey

/-- `ProofVerifier::new`. -/
def ProofVerifier.new : ProofVerifier := ⟨fun _ => none⟩

/-- `ProofVerifier::register_vk`: insert keyed by `vk.id()`. -/
def ProofVerifier.register_vk (v : ProofVerifier) (vk : VerificationKey) : ProofVerifier :=
  ⟨fun k => if k = vk.id then some vk else v.vks k⟩

/-- `ProofVerifier::verify_halo2`: look up the declared key id, failing with
`InvalidProof` when absent. -/
def ProofVerifier.verify_halo2 (v : ProofVerifier) (p : Halo2Proof) :
    Except CryptoError Bool :=
  match v.vks p.vk_id with
  | none => .error CryptoError.InvalidProof
  | some vk => p.verify vk

end Privl1

namespace Privl1

/-! ## Concrete instances used by the claim theorems and witnesses

`ZMod qScalar` is itself a module over `ZMod qScalar`, so it serves as a
concrete model of the pallas group interface, with `1` as the generator. -/

/-- A 32-byte test leaf filled with byte `k` (as in the crate's own tests). -/
def testLeaf (k : ℕ) : List ℕ := List.replicate 32 k

/-- The tree of `test_multiple_leaves`: leaves `[1; 32] .. [4; 32]` appended
to an empty tree. -/
def tree4 : IncrementalMerkleTree :=
  appendAll IncrementalMerkleTree.new [testLeaf 1, testLeaf 2, testLeaf 3, testLeaf 4]

/-- A concrete nullifier (`Nullifier([1u8; 32])`). -/
def nEx : Nullifier := ⟨List.replicate 32 1⟩

/-- A second concrete nullifier (`Nullifier([2u8; 32])`). -/
def nEx2 : Nullifier := ⟨List.replicate 32 2⟩

/-- A nullifier set that already contains `nEx`. -/
def sEx : NullifierSet := ⟨{nEx}⟩

/-- A concrete Pedersen scheme over the concrete group model. -/
def pcW : PedersenCommitment (ZMod qScalar) := PedersenCommitment.new 1

/-- A concrete nullifier deriving key (seed `[7u8; 32]`, which decodes to a
canonical nonzero scalar). -/
def nkEx : NullifierDerivingKey := NullifierDerivingKey.from_seed (List.replicate 32 7)

/-- A note carrying the cached commitment `⟨1⟩`. -/
def noteA : Note (ZMod qScalar) := Note.new 1 ⟨1⟩ (List.replicate 32 0) Scalar.zero

/-- A note carrying the different cached commitment `⟨2⟩`. -/
def noteB : Note (ZMod qScalar) := Note.new 2 ⟨2⟩ (List.replicate 32 0) Scalar.zero

/-- The generator point in the concrete group model. -/
def pointGenEx : Point (ZMod qScalar) := Point.generator 1

/-- A non-identity commitment in the concrete group model. -/
def commitEx : Commitment (ZMod qScalar) := ⟨1⟩

/-- A concrete spending key derived from seed `[7u8; 32]`. -/
def skEx : SpendingKey := SpendingKey.from_seed (List.replicate 32 7)

/-- The public key of `skEx` in the concrete group model. -/
def pkEx : PublicKey (ZMod qScalar) := PublicKey.from_spending_key 1 skEx

/-- A concrete message. -/
def msgEx : List ℕ := strBytes ("arbitrary message")

/-- The signature of `skEx` over `msgEx`. -/
def sigEx : Signature (ZMod qScalar) := skEx.sign 1 msgEx

/-- A concrete verification key whose id is the BLAKE3 hash of `[1, 2, 3]`. -/
def vkEx : VerificationKey := VerificationKey.new ProofSystem.Halo2 [1, 2, 3]

/-- A Halo2 proof declaring `vkEx`'s id. -/
def halo2Ex : Halo2Proof := { proof := [1], public_inputs := [], vk_id := vkEx.id }

/-- A note that has value 0 and zero blinding but a nonzero asset id, so it
differs from the canonical `Note::dummy()` form. -/
def noteC9 : Note (ZMod qScalar) :=
  { value := 0, asset_id := List.replicate 32 1, owner := ⟨⟨0⟩⟩,
    randomness := Scalar.zero, memo := none, cached_commitment := none }

/-- The all-zero seed; its spending-key and nullifier-key digests are not
canonical scalar encodings. -/
def seedZ : List ℕ := List.replicate 32 0

/-- The spending key whose scalar encodes as `[1u8; 32]`; its IVK and OVK
digests are not canonical scalar encodings. -/
def skOnes : SpendingKey := ⟨((fromLeBytes (List.replicate 32 1) : ℕ) : Scalar)⟩

/-! ## Literal checkpoint values for the Merkle computation (C2)

These byte lists were obtained by evaluating the definitions above; every
lemma below re-derives them inside the proof checker, at most four hash
compressions per step. -/

/-- Empty-subtree hash, level 0. -/
def eh0 : List ℕ := [0, 0, 0, 0, 0, 0, 0, 0, 0, 0, 0, 0, 0, 0, 0, 0, 0, 0, 0, 0, 0, 0, 0, 0, 0, 0, 0, 0, 0, 0, 0, 0]

/-- Empty-subtree hash, level 1. -/
def eh1 : List ℕ := [77, 0, 105, 118, 99, 106, 134, 150, 217, 9, 166, 48, 164, 8, 26, 173, 77, 124, 80, 248, 26, 253, 238, 4, 2, 11, 240, 80, 134, 171, 106, 85]

/-- Empty-subtree hash, level 2. -/
def eh2 : List ℕ := [73, 138, 142, 124, 2, 188, 44, 122, 252, 89, 139, 9, 122, 208, 101, 131, 110, 168, 78, 14, 223, 43, 240, 137, 84, 16, 150, 135, 17, 214, 181, 78]

/-- Empty-subtree hash, level 3. -/
def eh3 : List ℕ := [6, 37, 60, 82, 237, 133, 54, 228, 176, 119, 87, 214, 121, 197, 71, 253, 178, 5, 17, 129, 169, 203, 209, 227, 81, 107, 252, 113, 116, 41, 54, 247]

/-- Empty-subtree hash, level 4. -/
def eh4 : List ℕ := [49, 180, 113, 178, 123, 34, 181, 123, 26, 200, 44, 158, 213, 55, 35, 29, 83, 250, 240, 23, 251, 224, 201, 3, 201, 102, 143, 71, 220, 65, 81, 225]

/-- Empty-subtree hash, level 5. -/
def eh5 : List ℕ := [98, 43, 111, 101, 15, 63, 234, 192, 121, 137, 83, 245, 141, 237, 41, 109, 169, 162, 226, 152, 203, 53, 102, 200, 222, 45, 39, 217, 101, 142, 11, 140]

/-- Empty-subtree hash, level 6. -/
def eh6 : List ℕ := [219, 194, 142, 186, 110, 25, 115, 110, 12, 92, 167, 144, 253, 128, 254, 156, 234, 24, 86, 246, 144, 121, 37, 86, 43, 11, 94, 59, 45, 121, 56, 47]

/-- Empty-subtree hash, level 7. -/
def eh7 : List ℕ := [32, 6, 141, 47, 75, 192, 12, 129, 130, 84, 181, 176, 73, 151, 43, 230, 182, 238, 92, 170, 72, 123, 98, 17, 228, 18, 157, 159, 212, 234, 7, 197]

/-- Empty-subtree hash, level 8. -/
def eh8 : List ℕ := [246, 255, 209, 92, 108, 71, 179, 1, 59, 182, 76, 169, 214, 250, 99, 211, 217, 228, 9, 18, 129, 221, 251, 67, 145, 196, 160, 33, 212, 76, 109, 149]

/-- Empty-subtree hash, level 9. -/
def eh9 : List ℕ := [224, 91, 190, 199, 33, 237, 244, 229, 30, 13, 147, 60, 142, 40, 38, 252, 48, 90, 201, 91, 125, 122, 185, 149, 49, 231, 64, 86, 222, 1, 142, 155]

/-- Empty-subtree hash, level 10. -/
def eh10 : List ℕ := [108, 134, 226, 9, 90, 27, 192, 131, 94, 226, 199, 22, 193, 210, 98, 11, 21, 25, 6, 252, 235, 153, 153, 57, 3, 70, 185, 241, 157, 142, 178, 253]

/-- Empty-subtree hash, level 11. -/
def eh11 : List ℕ := [30, 134, 15, 228, 93, 195, 81, 235, 168, 6, 55, 226, 85, 214, 185, 82, 183, 69, 97, 255, 225, 245, 50, 240, 122, 227, 31, 58, 130, 231, 26, 217]

/-- Empty-subtree hash, level 12. -/
def eh12 : List ℕ := [85, 63, 218, 107, 79, 247, 151, 146, 153, 185, 20, 42, 255, 185, 52, 236, 170, 190, 86, 243, 187, 226, 252, 145, 81, 127, 167, 107, 238, 249, 158, 76]

/-- Empty-subtree hash, level 13. -/
def eh13 : List ℕ := [170, 215, 178, 99, 182, 152, 77, 103, 14, 38, 134, 247, 202, 203, 58, 99, 193, 93, 106, 214, 134, 140, 60, 135, 1, 26, 114, 121, 125, 107, 8, 253]

/-- Empty-subtree hash, level 14. -/
def eh14 : List ℕ := [128, 223, 64, 3, 148, 186, 55, 136, 155, 48, 59, 15, 100, 255, 157, 94, 84, 118, 159, 152, 20, 186, 140, 212, 196, 156, 7, 79, 223, 153, 38, 35]

/-- Empty-subtree hash, level 15. -/
def eh15 : List ℕ := [62, 37, 170, 54, 110, 137, 52, 86, 113, 38, 243, 133, 250, 143, 24, 26, 25, 11, 40, 104, 3, 209, 149, 27, 100, 51, 187, 74, 111, 35, 9, 168]

/-- Empty-subtree hash, level 16. -/
def eh16 : List ℕ := [184, 103, 203, 38, 98, 249, 73, 47, 118, 249, 225, 194, 4, 188, 180, 33, 159, 11, 16, 86, 188, 19, 96, 219, 198, 44, 53, 238, 41, 162, 66, 51]

/-- Empty-subtree hash, level 17. -/
def eh17 : List ℕ := [124, 233, 241, 73, 60, 13, 99, 129, 142, 55, 240, 230, 121, 234, 143, 99, 22, 186, 188, 168, 85, 19, 51, 62, 38, 171, 219, 203, 184, 195, 211, 224]

/-- Empty-subtree hash, level 18. -/
def eh18 : List ℕ := [20, 100, 238, 187, 52, 206, 250, 241, 151, 12, 25, 95, 0, 14, 5, 158, 136, 218, 120, 98, 89, 55, 190, 107, 23, 78, 126, 109, 221, 170, 158, 62]

/-- Empty-subtree hash, level 19. -/
def eh19 : List ℕ := [179, 221, 65, 196, 8, 85, 130, 208, 54, 207, 95, 72, 143, 111, 234, 189, 208, 48, 225, 102, 165, 7, 225, 196, 26, 62, 202, 116, 21, 109, 139, 161]

/-- Empty-subtree hash, level 20. -/
def eh20 : List ℕ := [117, 37, 51, 4, 24, 193, 136, 202, 216, 220, 243, 90, 144, 115, 13, 237, 152, 38, 176, 129, 255, 158, 165, 159, 49, 31, 106, 54, 50, 206, 215, 59]

/-- Empty-subtree hash, level 21. -/
def eh21 : List ℕ := [54, 89, 144, 184, 90, 161, 141, 192, 104, 36, 118, 24, 27, 12, 197, 200, 200, 44, 84, 212, 92, 137, 82, 246, 94, 21, 51, 132, 38, 165, 36, 8]

/-- Empty-subtree hash, level 22. -/
def eh22 : List ℕ := [107, 210, 62, 226, 167, 37, 245, 172, 215, 213, 248, 178, 15, 210, 213, 222, 15, 240, 106, 154, 137, 148, 86, 143, 219, 234, 211, 17, 243, 53, 193, 45]

/-- Empty-subtree hash, level 23. -/
def eh23 : List ℕ := [68, 65, 243, 156, 20, 19, 7, 6, 133, 35, 225, 7, 216, 119, 187, 105, 111, 194, 49, 55, 110, 83, 114, 27, 131, 79, 130, 97, 17, 115, 39, 157]

/-- Empty-subtree hash, level 24. -/
def eh24 : List ℕ := [18, 139, 216, 96, 14, 167, 162, 160, 193, 94, 224, 51, 83, 27, 97, 172, 188, 3, 98, 207, 46, 61, 161, 224, 212, 147, 20, 3, 127, 167, 83, 232]

/-- Empty-subtree hash, level 25. -/
def eh25 : List ℕ := [33, 129, 230, 34, 76, 200, 192, 226, 118, 237, 77, 27, 100, 123, 5, 135, 237, 189, 130, 236, 114, 189, 234, 216, 238, 25, 172, 42, 100, 218, 81, 245]

/-- Empty-subtree hash, level 26. -/
def eh26 : List ℕ := [119, 143, 135, 121, 70, 50, 240, 251, 235, 108, 42, 83, 129, 75, 202, 95, 170, 95, 169, 136, 104, 141, 16, 20, 210, 251, 148, 41, 140, 184, 138, 163]

/-- Empty-subtree hash, level 27. -/
def eh27 : List ℕ := [198, 212, 104, 71, 105, 245, 158, 105, 92, 8, 99, 131, 134, 174, 207, 241, 183, 102, 24, 194, 214, 157, 178, 125, 173, 182, 175, 12, 179, 57, 254, 138]

/-- Empty-subtree hash, level 28. -/
def eh28 : List ℕ := [4, 237, 16, 116, 104, 183, 123, 45, 212, 225, 143, 111, 189, 151, 123, 45, 142, 187, 65, 90, 158, 212, 166, 225, 27, 236, 146, 24, 19, 148, 116, 168]

/-- Empty-subtree hash, level 29. -/
def eh29 : List ℕ := [190, 80, 148, 51, 134, 13, 26, 46, 33, 92, 191, 141, 1, 189, 233, 213, 188, 154, 117, 92, 142, 13, 154, 178, 11, 28, 131, 215, 120, 108, 103, 240]

/-- Empty-subtree hash, level 30. -/
def eh30 : List ℕ := [53, 191, 107, 77, 144, 206, 86, 185, 179, 186, 182, 184, 121, 6, 161, 241, 143, 171, 157, 185, 47, 100, 127, 212, 41, 253, 34, 137, 4, 187, 173, 168]

/-- Empty-subtree hash, level 31. -/
def eh31 : List ℕ := [107, 43, 58, 242, 158, 12, 254, 6, 91, 127, 134, 217, 73, 114, 212, 74, 5, 188, 178, 168, 80, 224, 22, 51, 20, 227, 96, 59, 223, 33, 244, 237]

/-- Empty-subtree hash, level 32. -/
def eh32 : List ℕ := [164, 68, 94, 205, 34, 40, 30, 25, 194, 184, 106, 33, 21, 3, 39, 62, 224, 153, 14, 100, 219, 245, 237, 221, 158, 184, 101, 78, 194, 89, 163, 104]

/-- The single frontier entry of `tree4`. -/
def fLit : List ℕ := [17, 73, 17, 204, 136, 203, 146, 20, 106, 145, 252, 247, 125, 22, 71, 185, 107, 114, 183, 181, 204, 182, 174, 184, 225, 173, 145, 116, 93, 64, 82, 85]

/-- `rootLoop` accumulator after levels 0..0 on `tree4`. -/
def rr1 : List ℕ := [204, 244, 75, 211, 83, 194, 143, 109, 52, 69, 251, 71, 193, 0, 52, 188, 166, 47, 61, 244, 201, 114, 27, 108, 29, 63, 84, 253, 80, 54, 39, 32]

/-- `rootLoop` accumulator after levels 0..1 on `tree4`. -/
def rr2 : List ℕ := [168, 23, 83, 51, 178, 198, 138, 38, 80, 62, 90, 172, 202, 96, 152, 198, 225, 218, 154, 31, 123, 49, 87, 119, 122, 189, 217, 86, 176, 108, 91, 171]

/-- `rootLoop` accumulator after levels 0..2 on `tree4`. -/
def rr3 : List ℕ := [135, 60, 58, 65, 231, 230, 161, 5, 74, 144, 1, 179, 86, 82, 185, 211, 114, 167, 136, 129, 21, 65, 177, 248, 184, 63, 6, 157, 31, 231, 6, 142]

/-- `rootLoop` accumulator after levels 0..3 on `tree4`. -/
def rr4 : List ℕ := [116, 250, 153, 114, 228, 144, 3, 156, 193, 180, 168, 128, 188, 97, 237, 164, 228, 25, 71, 163, 146, 135, 177, 152, 134, 18, 2, 52, 142, 15, 231, 150]

/-- `rootLoop` accumulator after levels 0..4 on `tree4`. -/
def rr5 : List ℕ := [86, 253, 207, 137, 169, 114, 66, 254, 181, 148, 63, 132, 97, 31, 101, 56, 56, 235, 130, 35, 112, 8, 82, 135, 154, 106, 84, 111, 188, 106, 226, 54]

/-- `rootLoop` accumulator after levels 0..5 on `tree4`. -/
def rr6 : List ℕ := [129, 170, 171, 185, 179, 174, 224, 127, 6, 23, 162, 215, 113, 84, 132, 186, 32, 153, 238, 141, 65, 4, 159, 186, 84, 77, 98, 193, 226, 97, 19, 217]

/-- `rootLoop` accumulator after levels 0..6 on `tree4`. -/
def rr7 : List ℕ := [232, 68, 11, 50, 232, 227, 206, 23, 108, 15, 135, 251, 31, 9, 163, 42, 93, 108, 230, 141, 93, 145, 108, 254, 165, 185, 247, 154, 73, 166, 178, 26]

/-- `rootLoop` accumulator after levels 0..7 on `tree4`. -/
def rr8 : List ℕ := [97, 22, 139, 254, 182, 28, 100, 5, 223, 222, 156, 87, 136, 182, 181, 55, 86, 179, 119, 200, 202, 125, 31, 192, 135, 46, 232, 211, 38, 68, 220, 215]

/-- `rootLoop` accumulator after levels 0..8 on `tree4`. -/
def rr9 : List ℕ := [116, 238, 247, 9, 56, 67, 198, 0, 1, 250, 129, 65, 224, 248, 34, 217, 14, 27, 139, 95, 169, 184, 27, 218, 252, 231, 109, 118, 239, 138, 52, 29]

/-- `rootLoop` accumulator after levels 0..9 on `tree4`. -/
def rr10 : List ℕ := [247, 192, 117, 111, 97, 114, 15, 206, 116, 71, 4, 193, 192, 62, 215, 111, 58, 201, 25, 19, 229, 41, 200, 246, 102, 208, 66, 18, 186, 105, 98, 247]

/-- `rootLoop` accumulator after levels 0..10 on `tree4`. -/
def rr11 : List ℕ := [170, 119, 177, 112, 210, 19, 205, 2, 48, 178, 251, 17, 253, 195, 29, 22, 230, 155, 254, 109, 72, 88, 55, 101, 42, 139, 218, 37, 81, 57, 53, 243]

/-- `rootLoop` accumulator after levels 0..11 on `tree4`. -/
def rr12 : List ℕ := [34, 80, 20, 229, 9, 81, 122, 133, 90, 54, 123, 107, 125, 91, 9, 245, 36, 34, 148, 227, 77, 26, 83, 184, 176, 8, 207, 193, 135, 151, 63, 199]

/-- `rootLoop` accumulator after levels 0..12 on `tree4`. -/
def rr13 : List ℕ := [234, 3, 213, 187, 141, 45, 72, 8, 116, 56, 26, 228, 142, 143, 42, 174, 206, 67, 33, 19, 186, 7, 172, 78, 184, 199, 77, 120, 16, 64, 187, 189]

/-- `rootLoop` accumulator after levels 0..13 on `tree4`. -/
def rr14 : List ℕ := [118, 162, 23, 190, 216, 74, 208, 106, 110, 195, 122, 249, 237, 71, 31, 230, 92, 21, 122, 183, 236, 144, 29, 76, 65, 225, 182, 13, 49, 196, 148, 123]

/-- `rootLoop` accumulator after levels 0..14 on `tree4`. -/
def rr15 : List ℕ := [177, 219, 186, 2, 180, 241, 219, 105, 179, 100, 236, 58, 16, 179, 97, 254, 42, 251, 178, 115, 157, 169, 128, 48, 163, 223, 17, 186, 165, 105, 108, 42]

/-- `rootLoop` accumulator after levels 0..15 on `tree4`. -/
def rr16 : List ℕ := [199, 193, 255, 170, 18, 189, 227, 178, 79, 47, 185, 134, 53, 83, 105, 232, 111, 162, 48, 200, 251, 161, 110, 5, 202, 2, 253, 104, 18, 18, 223, 239]

/-- `rootLoop` accumulator after levels 0..16 on `tree4`. -/
def rr17 : List ℕ := [55, 236, 73, 154, 64, 140, 97, 74, 35, 163, 13, 142, 43, 36, 203, 133, 19, 120, 194, 15, 241, 29, 210, 77, 210, 53, 25, 200, 182, 241, 161, 45]

/-- `rootLoop` accumulator after levels 0..17 on `tree4`. -/
def rr18 : List ℕ := [154, 198, 208, 80, 249, 197, 180, 216, 64, 188, 92, 67, 149, 150, 37, 67, 81, 43, 111, 221, 167, 55, 199, 50, 199, 125, 134, 163, 241, 231, 35, 119]

/-- `rootLoop` accumulator after levels 0..18 on `tree4`. -/
def rr19 : List ℕ := [184, 135, 167, 60, 180, 229, 133, 243, 171, 36, 155, 200, 240, 5, 95, 220, 177, 161, 53, 206, 216, 181, 232, 182, 92, 155, 22, 10, 250, 236, 30, 131]

/-- `rootLoop` accumulator after levels 0..19 on `tree4`. -/
def rr20 : List ℕ := [193, 132, 139, 7, 83, 21, 0, 86, 171, 148, 170, 0, 106, 78, 211, 94, 65, 141, 243, 159, 231, 181, 58, 154, 5, 155, 60, 192, 11, 158, 231, 18]

/-- `rootLoop` accumulator after levels 0..20 on `tree4`. -/
def rr21 : List ℕ := [227, 223, 57, 79, 35, 225, 139, 23, 22, 12, 223, 74, 196, 115, 87, 128, 239, 243, 69, 228, 171, 192, 53, 248, 69, 164, 81, 68, 44, 2, 45, 251]

/-- `rootLoop` accumulator after levels 0..21 on `tree4`. -/
def rr22 : List ℕ := [193, 199, 151, 132, 59, 93, 144, 236, 139, 182, 26, 32, 9, 68, 42, 8, 240, 239, 114, 252, 141, 49, 97, 17, 148, 169, 189, 146, 109, 254, 156, 143]

/-- `rootLoop` accumulator after levels 0..22 on `tree4`. -/
def rr23 : List ℕ := [13, 136, 209, 164, 17, 155, 180, 17, 196, 14, 173, 50, 214, 92, 240, 214, 75, 44, 68, 38, 154, 235, 221, 173, 66, 224, 184, 26, 90, 2, 221, 154]

/-- `rootLoop` accumulator after levels 0..23 on `tree4`. -/
def rr24 : List ℕ := [179, 74, 59, 58, 182, 125, 209, 173, 7, 243, 57, 177, 13, 55, 19, 197, 163, 178, 145, 106, 140, 153, 240, 124, 64, 74, 169, 22, 63, 218, 133, 87]

/-- `rootLoop` accumulator after levels 0..24 on `tree4`. -/
def rr25 : List ℕ := [38, 159, 122, 47, 65, 58, 29, 102, 179, 221, 146, 216, 105, 242, 88, 93, 59, 134, 28, 43, 104, 171, 68, 198, 121, 211, 80, 20, 247, 155, 67, 249]

/-- `rootLoop` accumulator after levels 0..25 on `tree4`. -/
def rr26 : List ℕ := [204, 7, 43, 127, 236, 60, 50, 80, 5, 147, 9, 227, 179, 22, 165, 237, 180, 108, 185, 103, 146, 74, 173, 190, 46, 41, 247, 18, 203, 220, 122, 61]

/-- `rootLoop` accumulator after levels 0..26 on `tree4`. -/
def rr27 : List ℕ := [99, 128, 141, 64, 58, 106, 231, 126, 142, 141, 157, 5, 8, 30, 49, 219, 230, 179, 63, 203, 98, 63, 55, 16, 40, 241, 201, 134, 209, 246, 87, 178]

/-- `rootLoop` accumulator after levels 0..27 on `tree4`. -/
def rr28 : List ℕ := [94, 239, 208, 218, 86, 67, 11, 104, 19, 167, 164, 229, 112, 14, 80, 211, 144, 52, 208, 111, 230, 206, 66, 2, 224, 248, 182, 177, 229, 27, 241, 3]

/-- `rootLoop` accumulator after levels 0..28 on `tree4`. -/
def rr29 : List ℕ := [113, 53, 8, 166, 47, 43, 147, 26, 109, 244, 45, 144, 87, 20, 183, 26, 252, 35, 14, 124, 124, 133, 1, 242, 32, 107, 70, 61, 159, 192, 29, 244]

/-- `rootLoop` accumulator after levels 0..29 on `tree4`. -/
def rr30 : List ℕ := [86, 169, 24, 147, 25, 230, 192, 17, 26, 13, 57, 216, 210, 7, 199, 19, 194, 228, 238, 215, 119, 177, 101, 242, 51, 189, 127, 91, 115, 195, 196, 205]

/-- `rootLoop` accumulator after levels 0..30 on `tree4`. -/
def rr31 : List ℕ := [206, 48, 131, 195, 115, 69, 184, 192, 208, 15, 26, 118, 52, 88, 183, 106, 41, 216, 237, 118, 58, 239, 196, 88, 50, 227, 120, 12, 179, 251, 229, 164]

/-- `rootLoop` accumulator after levels 0..31 on `tree4`. -/
def rr32 : List ℕ := [190, 238, 10, 186, 252, 213, 215, 230, 193, 57, 167, 177, 210, 233, 210, 225, 50, 236, 115, 248, 58, 66, 251, 207, 188, 222, 198, 53, 71, 201, 28, 80]

/-- `verifyFold` accumulator after levels 0..0 for the position-2 proof. -/
def vv1 : List ℕ := [59, 197, 60, 192, 20, 24, 180, 252, 216, 85, 193, 155, 148, 99, 180, 220, 207, 228, 70, 136, 46, 254, 31, 110, 111, 233, 221, 238, 120, 228, 248, 13]

/-- `verifyFold` accumulator after levels 0..1 for the position-2 proof. -/
def vv2 : List ℕ := [234, 74, 74, 101, 129, 219, 72, 208, 236, 149, 38, 6, 42, 253, 198, 150, 71, 192, 197, 100, 66, 48, 28, 7, 101, 3, 133, 66, 207, 232, 67, 136]

/-- `verifyFold` accumulator after levels 0..2 for the position-2 proof. -/
def vv3 : List ℕ := [118, 76, 88, 97, 151, 26, 250, 110, 183, 39, 31, 13, 115, 226, 231, 163, 143, 53, 127, 51, 231, 211, 110, 249, 151, 248, 139, 185, 64, 242, 87, 80]

/-- `verifyFold` accumulator after levels 0..3 for the position-2 proof. -/
def vv4 : List ℕ := [252, 113, 229, 6, 11, 172, 118, 254, 229, 165, 198, 23, 91, 114, 75, 246, 228, 1, 192, 66, 195, 72, 118, 100, 33, 69, 42, 194, 150, 156, 48, 172]

/-- `verifyFold` accumulator after levels 0..4 for the position-2 proof. -/
def vv5 : List ℕ := [82, 246, 211, 114, 74, 112, 28, 141, 152, 3, 203, 211, 207, 158, 252, 182, 81, 153, 35, 204, 237, 65, 248, 100, 85, 104, 111, 87, 199, 228, 126, 32]

/-- `verifyFold` accumulator after levels 0..5 for the position-2 proof. -/
def vv6 : List ℕ := [82, 222, 112, 159, 42, 167, 184, 224, 98, 98, 86, 248, 41, 246, 171, 103, 95, 226, 91, 128, 233, 91, 75, 34, 192, 22, 92, 109, 211, 68, 151, 80]

/-- `verifyFold` accumulator after levels 0..6 for the position-2 proof. -/
def vv7 : List ℕ := [87, 94, 112, 151, 81, 20, 223, 193, 87, 77, 106, 32, 219, 94, 231, 131, 80, 246, 156, 30, 152, 31, 168, 219, 28, 53, 124, 145, 232, 178, 65, 145]

/-- `verifyFold` accumulator after levels 0..7 for the position-2 proof. -/
def vv8 : List ℕ := [49, 143, 111, 142, 55, 1, 229, 102, 117, 142, 92, 212, 119, 116, 46, 80, 26, 249, 54, 25, 189, 104, 241, 162, 97, 225, 144, 197, 72, 243, 155, 119]

/-- `verifyFold` accumulator after levels 0..8 for the position-2 proof. -/
def vv9 : List ℕ := [181, 127, 56, 110, 183, 219, 97, 178, 116, 192, 33, 178, 125, 88, 116, 84, 165, 128, 224, 99, 20, 52, 249, 163, 190, 199, 146, 88, 238, 150, 71, 26]

/-- `verifyFold` accumulator after levels 0..9 for the position-2 proof. -/
def vv10 : List ℕ := [197, 118, 32, 106, 56, 4, 196, 125, 70, 205, 246, 182, 122, 90, 185, 170, 1, 159, 29, 46, 41, 83, 99, 234, 106, 240, 132, 120, 139, 72, 103, 209]

/-- `verifyFold` accumulator after levels 0..10 for the position-2 proof. -/
def vv11 : List ℕ := [115, 211, 90, 10, 104, 1, 245, 222, 159, 150, 237, 78, 166, 77, 225, 91, 182, 118, 173, 111, 180, 201, 78, 210, 224, 195, 228, 71, 191, 172, 189, 102]

/-- `verifyFold` accumulator after levels 0..11 for the position-2 proof. -/
def vv12 : List ℕ := [52, 153, 40, 57, 8, 51, 238, 146, 161, 137, 173, 179, 115, 200, 173, 50, 54, 46, 139, 52, 75, 52, 54, 126, 67, 26, 152, 128, 246, 169, 86, 181]

/-- `verifyFold` accumulator after levels 0..12 for the position-2 proof. -/
def vv13 : List ℕ := [144, 132, 32, 96, 135, 102, 215, 233, 237, 241, 54, 201, 82, 16, 130, 119, 112, 249, 81, 80, 139, 141, 154, 34, 217, 138, 29, 1, 16, 142, 206, 173]

/-- `verifyFold` accumulator after levels 0..13 for the position-2 proof. -/
def vv14 : List ℕ := [26, 47, 195, 72, 242, 201, 240, 97, 189, 25, 141, 194, 247, 59, 46, 70, 190, 97, 127, 30, 216, 89, 116, 210, 222, 244, 23, 36, 42, 124, 152, 99]

/-- `verifyFold` accumulator after levels 0..14 for the position-2 proof. -/
def vv15 : List ℕ := [235, 212, 104, 22, 55, 114, 74, 216, 79, 112, 24, 73, 216, 204, 132, 101, 81, 64, 90, 248, 142, 47, 186, 12, 251, 94, 4, 108, 190, 233, 200, 195]

/-- `verifyFold` accumulator after levels 0..15 for the position-2 proof. -/
def vv16 : List ℕ := [11, 168, 154, 105, 225, 245, 189, 217, 90, 244, 217, 209, 244, 190, 151, 29, 129, 78, 91, 2, 101, 145, 70, 121, 143, 4, 255, 157, 173, 179, 53, 78]

/-- `verifyFold` accumulator after levels 0..16 for the position-2 proof. -/
def vv17 : List ℕ := [140, 153, 160, 157, 82, 250, 115, 123, 49, 193, 147, 237, 67, 114, 217, 223, 244, 154, 217, 136, 36, 160, 228, 25, 114, 229, 48, 57, 112, 189, 212, 145]

/-- `verifyFold` accumulator after levels 0..17 for the position-2 proof. -/
def vv18 : List ℕ := [49, 214, 31, 58, 57, 20, 87, 82, 203, 243, 204, 71, 231, 29, 230, 226, 247, 5, 211, 171, 166, 228, 171, 21, 77, 170, 143, 3, 114, 60, 233, 194]

/-- `verifyFold` accumulator after levels 0..18 for the position-2 proof. -/
def vv19 : List ℕ := [178, 253, 249, 110, 143, 233, 254, 129, 68, 57, 99, 31, 109, 150, 46, 19, 102, 115, 143, 228, 136, 4, 7, 181, 129, 21, 186, 140, 211, 55, 174, 230]

/-- `verifyFold` accumulator after levels 0..19 for the position-2 proof. -/
def vv20 : List ℕ := [133, 45, 39, 189, 55, 32, 224, 190, 129, 161, 178, 9, 67, 186, 233, 58, 76, 37, 95, 233, 177, 139, 96, 171, 200, 166, 1, 142, 183, 93, 34, 249]

/-- `verifyFold` accumulator after levels 0..20 for the position-2 proof. -/
def vv21 : List ℕ := [35, 89, 198, 141, 99, 93, 95, 67, 111, 61, 187, 214, 26, 171, 26, 210, 113, 18, 189, 214, 150, 227, 117, 148, 45, 111, 187, 186, 232, 52, 119, 72]

/-- `verifyFold` accumulator after levels 0..21 for the position-2 proof. -/
def vv22 : List ℕ := [211, 225, 171, 139, 173, 76, 6, 96, 81, 201, 112, 207, 190, 155, 151, 214, 37, 79, 47, 96, 19, 244, 8, 50, 127, 58, 130, 184, 4, 113, 135, 64]

/-- `verifyFold` accumulator after levels 0..22 for the position-2 proof. -/
def vv23 : List ℕ := [217, 57, 36, 243, 206, 55, 41, 92, 39, 32, 18, 92, 40, 166, 141, 237, 169, 61, 136, 43, 175, 118, 115, 22, 125, 2, 197, 192, 197, 183, 170, 125]

/-- `verifyFold` accumulator after levels 0..23 for the position-2 proof. -/
def vv24 : List ℕ := [237, 254, 176, 67, 56, 40, 164, 95, 1, 58, 210, 32, 148, 18, 168, 31, 197, 139, 21, 253, 60, 15, 106, 108, 134, 70, 102, 163, 131, 189, 138, 98]

/-- `verifyFold` accumulator after levels 0..24 for the position-2 proof. -/
def vv25 : List ℕ := [241, 79, 24, 165, 65, 248, 96, 246, 243, 72, 30, 16, 235, 198, 77, 74, 206, 187, 41, 23, 61, 98, 140, 115, 123, 13, 55, 67, 139, 33, 61, 161]

/-- `verifyFold` accumulator after levels 0..25 for the position-2 proof. -/
def vv26 : List ℕ := [222, 91, 200, 146, 247, 116, 177, 106, 48, 233, 83, 225, 234, 218, 2, 12, 220, 178, 147, 95, 200, 133, 223, 58, 130, 96, 171, 55, 118, 121, 219, 212]

/-- `verifyFold` accumulator after levels 0..26 for the position-2 proof. -/
def vv27 : List ℕ := [193, 153, 239, 64, 244, 222, 93, 75, 166, 226, 191, 180, 85, 57, 183, 154, 214, 252, 102, 49, 44, 59, 4, 172, 7, 26, 25, 242, 222, 59, 62, 232]

/-- `verifyFold` accumulator after levels 0..27 for the position-2 proof. -/
def vv28 : List ℕ := [77, 5, 27, 110, 132, 93, 177, 211, 59, 157, 194, 129, 96, 113, 225, 46, 221, 99, 107, 184, 18, 197, 137, 85, 61, 16, 46, 162, 230, 155, 188, 40]

/-- `verifyFold` accumulator after levels 0..28 for the position-2 proof. -/
def vv29 : List ℕ := [122, 153, 132, 120, 109, 82, 237, 142, 111, 88, 174, 173, 98, 85, 100, 191, 93, 248, 180, 158, 218, 110, 104, 109, 53, 2, 212, 156, 55, 245, 129, 14]

/-- `verifyFold` accumulator after levels 0..29 for the position-2 proof. -/
def vv30 : List ℕ := [144, 76, 136, 183, 109, 193, 142, 152, 78, 151, 233, 141, 187, 115, 124, 41, 169, 33, 184, 0, 103, 255, 95, 33, 152, 8, 60, 231, 31, 17, 221, 31]

/-- `verifyFold` accumulator after levels 0..30 for the position-2 proof. -/
def vv31 : List ℕ := [1, 15, 203, 98, 27, 80, 90, 179, 144, 135, 101, 244, 75, 181, 38, 84, 177, 92, 84, 231, 120, 8, 88, 167, 9, 60, 201, 56, 222, 220, 41, 92]

/-- `verifyFold` accumulator after levels 0..31 for the position-2 proof. -/
def vv32 : List ℕ := [172, 98, 215, 143, 2, 16, 230, 10, 184, 191, 242, 81, 190, 229, 174, 13, 209, 217, 38, 118, 188, 239, 92, 172, 15, 133, 66, 95, 73, 80, 173, 230]

/-- The empty-hash table of the tree, as literals. -/
def ehTabL : List (List ℕ) := [eh0, eh1, eh2, eh3, eh4, eh5, eh6, eh7, eh8, eh9, eh10, eh11, eh12, eh13, eh14, eh15, eh16, eh17, eh18, eh19, eh20, eh21, eh22, eh23, eh24, eh25, eh26, eh27, eh28, eh29, eh30, eh31, eh32]

/-- `tree4` with all lazily-represented fields replaced by literals. -/
def tree4L : IncrementalMerkleTree :=
  { num_leaves := 4, frontier := [fLit], cached_roots := [], empty_hashes := ehTabL }

/-- The authentication path returned by `tree4.prove 2`. -/
def pathLit : List (List ℕ) := [fLit, eh1, eh2, eh3, eh4, eh5, eh6, eh7, eh8, eh9, eh10, eh11, eh12, eh13, eh14, eh15, eh16, eh17, eh18, eh19, eh20, eh21, eh22, eh23, eh24, eh25, eh26, eh27, eh28, eh29, eh30, eh31]

end Privl1

namespace Privl1

/-! ## Helper lemmas -/

/-- Commitment addition acts on the underlying points. -/
theorem Commitment.add_point {G : Type} [AddCommGroup G] (a b : Commitment G) :
    a + b = ⟨a.point + b.point⟩ := rfl

/-- Commitment subtraction acts on the underlying points. -/
theorem Commitment.sub_point {G : Type} [AddCommGroup G] (a b : Commitment G) :
    a - b = ⟨a.point - b.point⟩ := rfl

/-- Membership in the fold that `spend_batch` uses to insert a batch. -/
theorem mem_foldl_insert (s : Finset Nullifier) (ns : List Nullifier) (n : Nullifier) :
    n ∈ ns.foldl (fun acc x => insert x acc) s ↔ n ∈ s ∨ n ∈ ns := by
  induction ns generalizing s with
  | nil => simp
  | cons x xs ih =>
    simp only [List.foldl_cons, ih, Finset.mem_insert, List.mem_cons]
    tauto

/-! ## Checkpoint lemmas evaluating the Merkle computation stepwise -/

set_option maxRecDepth 400000 in
set_option maxHeartbeats 1600000 in
theorem ehE0 : emptyHashes 0 = [eh0] := by rfl

set_option maxRecDepth 400000 in
set_option maxHeartbeats 1600000 in
theorem ehE1 : emptyHashes 1 = [eh0, eh1] := by
  rw [show emptyHashes 1 = emptyHashes 0 ++
      [merkle_hash ((emptyHashes 0).getD 0 []) ((emptyHashes 0).getD 0 [])] from rfl,
    ehE0]
  rfl

set_option maxRecDepth 400000 in
set_option maxHeartbeats 1600000 in
theorem ehE2 : emptyHashes 2 = [eh0, eh1, eh2] := by
  rw [show emptyHashes 2 = emptyHashes 1 ++
      [merkle_hash ((emptyHashes 1).getD 1 []) ((emptyHashes 1).getD 1 [])] from rfl,
    ehE1]
  rfl

set_option maxRecDepth 400000 in
set_option maxHeartbeats 1600000 in
theorem ehE3 : emptyHashes 3 = [eh0, eh1, eh2, eh3] := by
  rw [show emptyHashes 3 = emptyHashes 2 ++
      [merkle_hash ((emptyHashes 2).getD 2 []) ((emptyHashes 2).getD 2 [])] from rfl,
    ehE2]
  rfl

set_option maxRecDepth 400000 in
set_option maxHeartbeats 1600000 in
theorem ehE4 : emptyHashes 4 = [eh0, eh1, eh2, eh3, eh4] := by
  rw [show emptyHashes 4 = emptyHashes 3 ++
      [merkle_hash ((emptyHashes 3).getD 3 []) ((emptyHashes 3).getD 3 [])] from rfl,
    ehE3]
  rfl

set_option maxRecDepth 400000 in
set_option maxHeartbeats 1600000 in
theorem ehE5 : emptyHashes 5 = [eh0, eh1, eh2, eh3, eh4, eh5] := by
  rw [show emptyHashes 5 = emptyHashes 4 ++
      [merkle_hash ((emptyHashes 4).getD 4 []) ((emptyHashes 4).getD 4 [])] from rfl,
    ehE4]
  rfl

set_option maxRecDepth 400000 in
set_option maxHeartbeats 1600000 in
theorem ehE6 : emptyHashes 6 = [eh0, eh1, eh2, eh3, eh4, eh5, eh6] := by
  rw [show emptyHashes 6 = emptyHashes 5 ++
      [merkle_hash ((emptyHashes 5).getD 5 []) ((emptyHashes 5).getD 5 [])] from rfl,
    ehE5]
  rfl

set_option maxRecDepth 400000 in
set_option maxHeartbeats 1600000 in
theorem ehE7 : emptyHashes 7 = [eh0, eh1, eh2, eh3, eh4, eh5, eh6, eh7] := by
  rw [show emptyHashes 7 = emptyHashes 6 ++
      [merkle_hash ((emptyHashes 6).getD 6 []) ((emptyHashes 6).getD 6 [])] from rfl,
    ehE6]
  rfl

set_option maxRecDepth 400000 in
set_option maxHeartbeats 1600000 in
theorem ehE8 : emptyHashes 8 = [eh0, eh1, eh2, eh3, eh4, eh5, eh6, eh7, eh8] := by
  rw [show emptyHashes 8 = emptyHashes 7 ++
      [merkle_hash ((emptyHashes 7).getD 7 []) ((emptyHashes 7).getD 7 [])] from rfl,
    ehE7]
  rfl

set_option maxRecDepth 400000 in
set_option maxHeartbeats 1600000 in
theorem ehE9 : emptyHashes 9 = [eh0, eh1, eh2, eh3, eh4, eh5, eh6, eh7, eh8, eh9] := by
  rw [show emptyHashes 9 = emptyHashes 8 ++
      [merkle_hash ((emptyHashes 8).getD 8 []) ((emptyHashes 8).getD 8 [])] from rfl,
    ehE8]
  rfl

set_option maxRecDepth 400000 in
set_option maxHeartbeats 1600000 in
theorem ehE10 : emptyHashes 10 = [eh0, eh1, eh2, eh3, eh4, eh5, eh6, eh7, eh8, eh9, eh10] := by
  rw [show emptyHashes 10 = emptyHashes 9 ++
      [merkle_hash ((emptyHashes 9).getD 9 []) ((emptyHashes 9).getD 9 [])] from rfl,
    ehE9]
  rfl

set_option maxRecDepth 400000 in
set_option maxHeartbeats 1600000 in
theorem ehE11 : emptyHashes 11 = [eh0, eh1, eh2, eh3, eh4, eh5, eh6, eh7, eh8, eh9, eh10, eh11] := by
  rw [show emptyHashes 11 = emptyHashes 10 ++
      [merkle_hash ((emptyHashes 10).getD 10 []) ((emptyHashes 10).getD 10 [])] from rfl,
    ehE10]
  rfl

set_option maxRecDepth 400000 in
set_option maxHeartbeats 1600000 in
theorem ehE12 : emptyHashes 12 = [eh0, eh1, eh2, eh3, eh4, eh5, eh6, eh7, eh8, eh9, eh10, eh11, eh12] := by
  rw [show emptyHashes 12 = emptyHashes 11 ++
      [merkle_hash ((emptyHashes 11).getD 11 []) ((emptyHashes 11).getD 11 [])] from rfl,
    ehE11]
  rfl

set_option maxRecDepth 400000 in
set_option maxHeartbeats 1600000 in
theorem ehE13 : emptyHashes 13 = [eh0, eh1, eh2, eh3, eh4, eh5, eh6, eh7, eh8, eh9, eh10, eh11, eh12, eh13] := by
  rw [show emptyHashes 13 = emptyHashes 12 ++
      [merkle_hash ((emptyHashes 12).getD 12 []) ((emptyHashes 12).getD 12 [])] from rfl,
    ehE12]
  rfl

set_option maxRecDepth 400000 in
set_option maxHeartbeats 1600000 in
theorem ehE14 : emptyHashes 14 = [eh0, eh1, eh2, eh3, eh4, eh5, eh6, eh7, eh8, eh9, eh10, eh11, eh12, eh13, eh14] := by
  rw [show emptyHashes 14 = emptyHashes 13 ++
      [merkle_hash ((emptyHashes 13).getD 13 []) ((emptyHashes 13).getD 13 [])] from rfl,
    ehE13]
  rfl

set_option maxRecDepth 400000 in
set_option maxHeartbeats 1600000 in
theorem ehE15 : emptyHashes 15 = [eh0, eh1, eh2, eh3, eh4, eh5, eh6, eh7, eh8, eh9, eh10, eh11, eh12, eh13, eh14, eh15] := by
  rw [show emptyHashes 15 = emptyHashes 14 ++
      [merkle_hash ((emptyHashes 14).getD 14 []) ((emptyHashes 14).getD 14 [])] from rfl,
    ehE14]
  rfl

set_option maxRecDepth 400000 in
set_option maxHeartbeats 1600000 in
theorem ehE16 : emptyHashes 16 = [eh0, eh1, eh2, eh3, eh4, eh5, eh6, eh7, eh8, eh9, eh10, eh11, eh12, eh13, eh14, eh15, eh16] := by
  rw [show emptyHashes 16 = emptyHashes 15 ++
      [merkle_hash ((emptyHashes 15).getD 15 []) ((emptyHashes 15).getD 15 [])] from rfl,
    ehE15]
  rfl

set_option maxRecDepth 400000 in
set_option maxHeartbeats 1600000 in
theorem ehE17 : emptyHashes 17 = [eh0, eh1, eh2, eh3, eh4, eh5, eh6, eh7, eh8, eh9, eh10, eh11, eh12, eh13, eh14, eh15, eh16, eh17] := by
  rw [show emptyHashes 17 = emptyHashes 16 ++
      [merkle_hash ((emptyHashes 16).getD 16 []) ((emptyHashes 16).getD 16 [])] from rfl,
    ehE16]
  rfl

set_option maxRecDepth 400000 in
set_option maxHeartbeats 1600000 in
theorem ehE18 : emptyHashes 18 = [eh0, eh1, eh2, eh3, eh4, eh5, eh6, eh7, eh8, eh9, eh10, eh11, eh12, eh13, eh14, eh15, eh16, eh17, eh18] := by
  rw [show emptyHashes 18 = emptyHashes 17 ++
      [merkle_hash ((emptyHashes 17).getD 17 []) ((emptyHashes 17).getD 17 [])] from rfl,
    ehE17]
  rfl

set_option maxRecDepth 400000 in
set_option maxHeartbeats 1600000 in
theorem ehE19 : emptyHashes 19 = [eh0, eh1, eh2, eh3, eh4, eh5, eh6, eh7, eh8, eh9, eh10, eh11, eh12, eh13, eh14, eh15, eh16, eh17, eh18, eh19] := by
  rw [show emptyHashes 19 = emptyHashes 18 ++
      [merkle_hash ((emptyHashes 18).getD 18 []) ((emptyHashes 18).getD 18 [])] from rfl,
    ehE18]
  rfl

set_option maxRecDepth 400000 in
set_option maxHeartbeats 1600000 in
theorem ehE20 : emptyHashes 20 = [eh0, eh1, eh2, eh3, eh4, eh5, eh6, eh7, eh8, eh9, eh10, eh11, eh12, eh13, eh14, eh15, eh16, eh17, eh18, eh19, eh20] := by
  rw [show emptyHashes 20 = emptyHashes 19 ++
      [merkle_hash ((emptyHashes 19).getD 19 []) ((emptyHashes 19).getD 19 [])] from rfl,
    ehE19]
  rfl

set_option maxRecDepth 400000 in
set_option maxHeartbeats 1600000 in
theorem ehE21 : emptyHashes 21 = [eh0, eh1, eh2, eh3, eh4, eh5, eh6, eh7, eh8, eh9, eh10, eh11, eh12, eh13, eh14, eh15, eh16, eh17, eh18, eh19, eh20, eh21] := by
  rw [show emptyHashes 21 = emptyHashes 20 ++
      [merkle_hash ((emptyHashes 20).getD 20 []) ((emptyHashes 20).getD 20 [])] from rfl,
    ehE20]
  rfl

set_option maxRecDepth 400000 in
set_option maxHeartbeats 1600000 in
theorem ehE22 : emptyHashes 22 = [eh0, eh1, eh2, eh3, eh4, eh5, eh6, eh7, eh8, eh9, eh10, eh11, eh12, eh13, eh14, eh15, eh16, eh17, eh18, eh19, eh20, eh21, eh22] := by
  rw [show emptyHashes 22 = emptyHashes 21 ++
      [merkle_hash ((emptyHashes 21).getD 21 []) ((emptyHashes 21).getD 21 [])] from rfl,
    ehE21]
  rfl

set_option maxRecDepth 400000 in
set_option maxHeartbeats 1600000 in
theorem ehE23 : emptyHashes 23 = [eh0, eh1, eh2, eh3, eh4, eh5, eh6, eh7, eh8, eh9, eh10, eh11, eh12, eh13, eh14, eh15, eh16, eh17, eh18, eh19, eh20, eh21, eh22, eh23] := by
  rw [show emptyHashes 23 = emptyHashes 22 ++
      [merkle_hash ((emptyHashes 22).getD 22 []) ((emptyHashes 22).getD 22 [])] from rfl,
    ehE22]
  rfl

set_option maxRecDepth 400000 in
set_option maxHeartbeats 1600000 in
theorem ehE24 : emptyHashes 24 = [eh0, eh1, eh2, eh3, eh4, eh5, eh6, eh7, eh8, eh9, eh10, eh11, eh12, eh13, eh14, eh15, eh16, eh17, eh18, eh19, eh20, eh21, eh22, eh23, eh24] := by
  rw [show emptyHashes 24 = emptyHashes 23 ++
      [merkle_hash ((emptyHashes 23).getD 23 []) ((emptyHashes 23).getD 23 [])] from rfl,
    ehE23]
  rfl

set_option maxRecDepth 400000 in
set_option maxHeartbeats 1600000 in
theorem ehE25 : emptyHashes 25 = [eh0, eh1, eh2, eh3, eh4, eh5, eh6, eh7, eh8, eh9, eh10, eh11, eh12, eh13, eh14, eh15, eh16, eh17, eh18, eh19, eh20, eh21, eh22, eh23, eh24, eh25] := by
  rw [show emptyHashes 25 = emptyHashes 24 ++
      [merkle_hash ((emptyHashes 24).getD 24 []) ((emptyHashes 24).getD 24 [])] from rfl,
    ehE24]
  rfl

set_option maxRecDepth 400000 in
set_option maxHeartbeats 1600000 in
theorem ehE26 : emptyHashes 26 = [eh0, eh1, eh2, eh3, eh4, eh5, eh6, eh7, eh8, eh9, eh10, eh11, eh12, eh13, eh14, eh15, eh16, eh17, eh18, eh19, eh20, eh21, eh22, eh23, eh24, eh25, eh26] := by
  rw [show emptyHashes 26 = emptyHashes 25 ++
      [merkle_hash ((emptyHashes 25).getD 25 []) ((emptyHashes 25).getD 25 [])] from rfl,
    ehE25]
  rfl

set_option maxRecDepth 400000 in
set_option maxHeartbeats 1600000 in
theorem ehE27 : emptyHashes 27 = [eh0, eh1, eh2, eh3, eh4, eh5, eh6, eh7, eh8, eh9, eh10, eh11, eh12, eh13, eh14, eh15, eh16, eh17, eh18, eh19, eh20, eh21, eh22, eh23, eh24, eh25, eh26, eh27] := by
  rw [show emptyHashes 27 = emptyHashes 26 ++
      [merkle_hash ((emptyHashes 26).getD 26 []) ((emptyHashes 26).getD 26 [])] from rfl,
    ehE26]
  rfl

set_option maxRecDepth 400000 in
set_option maxHeartbeats 1600000 in
theorem ehE28 : emptyHashes 28 = [eh0, eh1, eh2, eh3, eh4, eh5, eh6, eh7, eh8, eh9, eh10, eh11, eh12, eh13, eh14, eh15, eh16, eh17, eh18, eh19, eh20, eh21, eh22, eh23, eh24, eh25, eh26, eh27, eh28] := by
  rw [show emptyHashes 28 = emptyHashes 27 ++
      [merkle_hash ((emptyHashes 27).getD 27 []) ((emptyHashes 27).getD 27 [])] from rfl,
    ehE27]
  rfl

set_option maxRecDepth 400000 in
set_option maxHeartbeats 1600000 in
theorem ehE29 : emptyHashes 29 = [eh0, eh1, eh2, eh3, eh4, eh5, eh6, eh7, eh8, eh9, eh10, eh11, eh12, eh13, eh14, eh15, eh16, eh17, eh18, eh19, eh20, eh21, eh22, eh23, eh24, eh25, eh26, eh27, eh28, eh29] := by
  rw [show emptyHashes 29 = emptyHashes 28 ++
      [merkle_hash ((emptyHashes 28).getD 28 []) ((emptyHashes 28).getD 28 [])] from rfl,
    ehE28]
  rfl

set_option maxRecDepth 400000 in
set_option maxHeartbeats 1600000 in
theorem ehE30 : emptyHashes 30 = [eh0, eh1, eh2, eh3, eh4, eh5, eh6, eh7, eh8, eh9, eh10, eh11, eh12, eh13, eh14, eh15, eh16, eh17, eh18, eh19, eh20, eh21, eh22, eh23, eh24, eh25, eh26, eh27, eh28, eh29, eh30] := by
  rw [show emptyHashes 30 = emptyHashes 29 ++
      [merkle_hash ((emptyHashes 29).getD 29 []) ((emptyHashes 29).getD 29 [])] from rfl,
    ehE29]
  rfl

set_option maxRecDepth 400000 in
set_option maxHeartbeats 1600000 in
theorem ehE31 : emptyHashes 31 = [eh0, eh1, eh2, eh3, eh4, eh5, eh6, eh7, eh8, eh9, eh10, eh11, eh12, eh13, eh14, eh15, eh16, eh17, eh18, eh19, eh20, eh21, eh22, eh23, eh24, eh25, eh26, eh27, eh28, eh29, eh30, eh31] := by
  rw [show emptyHashes 31 = emptyHashes 30 ++
      [merkle_hash ((emptyHashes 30).getD 30 []) ((emptyHashes 30).getD 30 [])] from rfl,
    ehE30]
  rfl

set_option maxRecDepth 400000 in
set_option maxHeartbeats 1600000 in
theorem ehE32 : emptyHashes 32 = [eh0, eh1, eh2, eh3, eh4, eh5, eh6, eh7, eh8, eh9, eh10, eh11, eh12, eh13, eh14, eh15, eh16, eh17, eh18, eh19, eh20, eh21, eh22, eh23, eh24, eh25, eh26, eh27, eh28, eh29, eh30, eh31, eh32] := by
  rw [show emptyHashes 32 = emptyHashes 31 ++
      [merkle_hash ((emptyHashes 31).getD 31 []) ((emptyHashes 31).getD 31 [])] from rfl,
    ehE31]
  rfl

set_option maxRecDepth 400000 in
set_option maxHeartbeats 1600000 in
theorem ehTabEq : emptyHashes TREE_DEPTH = ehTabL := by
  show emptyHashes 32 = ehTabL
  exact ehE32

set_option maxRecDepth 400000 in
set_option maxHeartbeats 1600000 in
theorem tree4_eq : tree4 = tree4L := by
  have hnew : IncrementalMerkleTree.new =
      { num_leaves := 0, frontier := [], cached_roots := [], empty_hashes := ehTabL } := by
    unfold IncrementalMerkleTree.new
    rw [ehTabEq]
  unfold tree4
  rw [hnew]
  rfl

/-- One step of the `root` level loop, with the lets inlined. -/
theorem rootLoop_cons (frontier eh : List (List ℕ)) (ci level : ℕ) (rest : List ℕ)
    (current : List ℕ) :
    rootLoop frontier eh ci (level :: rest) current = rootLoop frontier eh ci rest
      (if level < frontier.length - 1 then
        if (ci >>> (level + 1)) % 2 = 1 then
          merkle_hash
            (if level + 1 < frontier.length then frontier.getD (level + 1) []
             else eh.getD (level + 1) []) current
        else current
      else
        if (ci >>> level) % 2 = 0 then merkle_hash current (eh.getD level [])
        else merkle_hash (eh.getD level []) current) := rfl

/-- One step of the proof-verification fold. -/
theorem verifyFold_cons (sib : List ℕ) (rest : List (List ℕ)) (index : ℕ)
    (current : List ℕ) :
    verifyFold (sib :: rest) index current =
      verifyFold rest (index >>> 1)
        (if index % 2 = 0 then merkle_hash current sib
         else merkle_hash sib current) := rfl

set_option maxRecDepth 400000 in
set_option maxHeartbeats 1600000 in
theorem rs0 : rootLoop [fLit] ehTabL 3 [0, 1, 2, 3, 4, 5, 6, 7, 8, 9, 10, 11, 12, 13, 14, 15, 16, 17, 18, 19, 20, 21, 22, 23, 24, 25, 26, 27, 28, 29, 30, 31] fLit
    = rootLoop [fLit] ehTabL 3 [1, 2, 3, 4, 5, 6, 7, 8, 9, 10, 11, 12, 13, 14, 15, 16, 17, 18, 19, 20, 21, 22, 23, 24, 25, 26, 27, 28, 29, 30, 31] rr1 := by
  rw [rootLoop_cons]
  congr 1

set_option maxRecDepth 400000 in
set_option maxHeartbeats 1600000 in
theorem rs1 : rootLoop [fLit] ehTabL 3 [1, 2, 3, 4, 5, 6, 7, 8, 9, 10, 11, 12, 13, 14, 15, 16, 17, 18, 19, 20, 21, 22, 23, 24, 25, 26, 27, 28, 29, 30, 31] rr1
    = rootLoop [fLit] ehTabL 3 [2, 3, 4, 5, 6, 7, 8, 9, 10, 11, 12, 13, 14, 15, 16, 17, 18, 19, 20, 21, 22, 23, 24, 25, 26, 27, 28, 29, 30, 31] rr2 := by
  rw [rootLoop_cons]
  congr 1

set_option maxRecDepth 400000 in
set_option maxHeartbeats 1600000 in
theorem rs2 : rootLoop [fLit] ehTabL 3 [2, 3, 4, 5, 6, 7, 8, 9, 10, 11, 12, 13, 14, 15, 16, 17, 18, 19, 20, 21, 22, 23, 24, 25, 26, 27, 28, 29, 30, 31] rr2
    = rootLoop [fLit] ehTabL 3 [3, 4, 5, 6, 7, 8, 9, 10, 11, 12, 13, 14, 15, 16, 17, 18, 19, 20, 21, 22, 23, 24, 25, 26, 27, 28, 29, 30, 31] rr3 := by
  rw [rootLoop_cons]
  congr 1

set_option maxRecDepth 400000 in
set_option maxHeartbeats 1600000 in
theorem rs3 : rootLoop [fLit] ehTabL 3 [3, 4, 5, 6, 7, 8, 9, 10, 11, 12, 13, 14, 15, 16, 17, 18, 19, 20, 21, 22, 23, 24, 25, 26, 27, 28, 29, 30, 31] rr3
    = rootLoop [fLit] ehTabL 3 [4, 5, 6, 7, 8, 9, 10, 11, 12, 13, 14, 15, 16, 17, 18, 19, 20, 21, 22, 23, 24, 25, 26, 27, 28, 29, 30, 31] rr4 := by
  rw [rootLoop_cons]
  congr 1

set_option maxRecDepth 400000 in
set_option maxHeartbeats 1600000 in
theorem rs4 : rootLoop [fLit] ehTabL 3 [4, 5, 6, 7, 8, 9, 10, 11, 12, 13, 14, 15, 16, 17, 18, 19, 20, 21, 22, 23, 24, 25, 26, 27, 28, 29, 30, 31] rr4
    = rootLoop [fLit] ehTabL 3 [5, 6, 7, 8, 9, 10, 11, 12, 13, 14, 15, 16, 17, 18, 19, 20, 21, 22, 23, 24, 25, 26, 27, 28, 29, 30, 31] rr5 := by
  rw [rootLoop_cons]
  congr 1

set_option maxRecDepth 400000 in
set_option maxHeartbeats 1600000 in
theorem rs5 : rootLoop [fLit] ehTabL 3 [5, 6, 7, 8, 9, 10, 11, 12, 13, 14, 15, 16, 17, 18, 19, 20, 21, 22, 23, 24, 25, 26, 27, 28, 29, 30, 31] rr5
    = rootLoop [fLit] ehTabL 3 [6, 7, 8, 9, 10, 11, 12, 13, 14, 15, 16, 17, 18, 19, 20, 21, 22, 23, 24, 25, 26, 27, 28, 29, 30, 31] rr6 := by
  rw [rootLoop_cons]
  congr 1

set_option maxRecDepth 400000 in
set_option maxHeartbeats 1600000 in
theorem rs6 : rootLoop [fLit] ehTabL 3 [6, 7, 8, 9, 10, 11, 12, 13, 14, 15, 16, 17, 18, 19, 20, 21, 22, 23, 24, 25, 26, 27, 28, 29, 30, 31] rr6
    = rootLoop [fLit] ehTabL 3 [7, 8, 9, 10, 11, 12, 13, 14, 15, 16, 17, 18, 19, 20, 21, 22, 23, 24, 25, 26, 27, 28, 29, 30, 31] rr7 := by
  rw [rootLoop_cons]
  congr 1

set_option maxRecDepth 400000 in
set_option maxHeartbeats 1600000 in
theorem rs7 : rootLoop [fLit] ehTabL 3 [7, 8, 9, 10, 11, 12, 13, 14, 15, 16, 17, 18, 19, 20, 21, 22, 23, 24, 25, 26, 27, 28, 29, 30, 31] rr7
    = rootLoop [fLit] ehTabL 3 [8, 9, 10, 11, 12, 13, 14, 15, 16, 17, 18, 19, 20, 21, 22, 23, 24, 25, 26, 27, 28, 29, 30, 31] rr8 := by
  rw [rootLoop_cons]
  congr 1

set_option maxRecDepth 400000 in
set_option maxHeartbeats 1600000 in
theorem rs8 : rootLoop [fLit] ehTabL 3 [8, 9, 10, 11, 12, 13, 14, 15, 16, 17, 18, 19, 20, 21, 22, 23, 24, 25, 26, 27, 28, 29, 30, 31] rr8
    = rootLoop [fLit] ehTabL 3 [9, 10, 11, 12, 13, 14, 15, 16, 17, 18, 19, 20, 21, 22, 23, 24, 25, 26, 27, 28, 29, 30, 31] rr9 := by
  rw [rootLoop_cons]
  congr 1

set_option maxRecDepth 400000 in
set_option maxHeartbeats 1600000 in
theorem rs9 : rootLoop [fLit] ehTabL 3 [9, 10, 11, 12, 13, 14, 15, 16, 17, 18, 19, 20, 21, 22, 23, 24, 25, 26, 27, 28, 29, 30, 31] rr9
    = rootLoop [fLit] ehTabL 3 [10, 11, 12, 13, 14, 15, 16, 17, 18, 19, 20, 21, 22, 23, 24, 25, 26, 27, 28, 29, 30, 31] rr10 := by
  rw [rootLoop_cons]
  congr 1

set_option maxRecDepth 400000 in
set_option maxHeartbeats 1600000 in
theorem rs10 : rootLoop [fLit] ehTabL 3 [10, 11, 12, 13, 14, 15, 16, 17, 18, 19, 20, 21, 22, 23, 24, 25, 26, 27, 28, 29, 30, 31] rr10
    = rootLoop [fLit] ehTabL 3 [11, 12, 13, 14, 15, 16, 17, 18, 19, 20, 21, 22, 23, 24, 25, 26, 27, 28, 29, 30, 31] rr11 := by
  rw [rootLoop_cons]
  congr 1

set_option maxRecDepth 400000 in
set_option maxHeartbeats 1600000 in
theorem rs11 : rootLoop [fLit] ehTabL 3 [11, 12, 13, 14, 15, 16, 17, 18, 19, 20, 21, 22, 23, 24, 25, 26, 27, 28, 29, 30, 31] rr11
    = rootLoop [fLit] ehTabL 3 [12, 13, 14, 15, 16, 17, 18, 19, 20, 21, 22, 23, 24, 25, 26, 27, 28, 29, 30, 31] rr12 := by
  rw [rootLoop_cons]
  congr 1

set_option maxRecDepth 400000 in
set_option maxHeartbeats 1600000 in
theorem rs12 : rootLoop [fLit] ehTabL 3 [12, 13, 14, 15, 16, 17, 18, 19, 20, 21, 22, 23, 24, 25, 26, 27, 28, 29, 30, 31] rr12
    = rootLoop [fLit] ehTabL 3 [13, 14, 15, 16, 17, 18, 19, 20, 21, 22, 23, 24, 25, 26, 27, 28, 29, 30, 31] rr13 := by
  rw [rootLoop_cons]
  congr 1

set_option maxRecDepth 400000 in
set_option maxHeartbeats 1600000 in
theorem rs13 : rootLoop [fLit] ehTabL 3 [13, 14, 15, 16, 17, 18, 19, 20, 21, 22, 23, 24, 25, 26, 27, 28, 29, 30, 31] rr13
    = rootLoop [fLit] ehTabL 3 [14, 15, 16, 17, 18, 19, 20, 21, 22, 23, 24, 25, 26, 27, 28, 29, 30, 31] rr14 := by
  rw [rootLoop_cons]
  congr 1

set_option maxRecDepth 400000 in
set_option maxHeartbeats 1600000 in
theorem rs14 : rootLoop [fLit] ehTabL 3 [14, 15, 16, 17, 18, 19, 20, 21, 22, 23, 24, 25, 26, 27, 28, 29, 30, 31] rr14
    = rootLoop [fLit] ehTabL 3 [15, 16, 17, 18, 19, 20, 21, 22, 23, 24, 25, 26, 27, 28, 29, 30, 31] rr15 := by
  rw [rootLoop_cons]
  congr 1

set_option maxRecDepth 400000 in
set_option maxHeartbeats 1600000 in
theorem rs15 : rootLoop [fLit] ehTabL 3 [15, 16, 17, 18, 19, 20, 21, 22, 23, 24, 25, 26, 27, 28, 29, 30, 31] rr15
    = rootLoop [fLit] ehTabL 3 [16, 17, 18, 19, 20, 21, 22, 23, 24, 25, 26, 27, 28, 29, 30, 31] rr16 := by
  rw [rootLoop_cons]
  congr 1

set_option maxRecDepth 400000 in
set_option maxHeartbeats 1600000 in
theorem rs16 : rootLoop [fLit] ehTabL 3 [16, 17, 18, 19, 20, 21, 22, 23, 24, 25, 26, 27, 28, 29, 30, 31] rr16
    = rootLoop [fLit] ehTabL 3 [17, 18, 19, 20, 21, 22, 23, 24, 25, 26, 27, 28, 29, 30, 31] rr17 := by
  rw [rootLoop_cons]
  congr 1

set_option maxRecDepth 400000 in
set_option maxHeartbeats 1600000 in
theorem rs17 : rootLoop [fLit] ehTabL 3 [17, 18, 19, 20, 21, 22, 23, 24, 25, 26, 27, 28, 29, 30, 31] rr17
    = rootLoop [fLit] ehTabL 3 [18, 19, 20, 21, 22, 23, 24, 25, 26, 27, 28, 29, 30, 31] rr18 := by
  rw [rootLoop_cons]
  congr 1

set_option maxRecDepth 400000 in
set_option maxHeartbeats 1600000 in
theorem rs18 : rootLoop [fLit] ehTabL 3 [18, 19, 20, 21, 22, 23, 24, 25, 26, 27, 28, 29, 30, 31] rr18
    = rootLoop [fLit] ehTabL 3 [19, 20, 21, 22, 23, 24, 25, 26, 27, 28, 29, 30, 31] rr19 := by
  rw [rootLoop_cons]
  congr 1

set_option maxRecDepth 400000 in
set_option maxHeartbeats 1600000 in
theorem rs19 : rootLoop [fLit] ehTabL 3 [19, 20, 21, 22, 23, 24, 25, 26, 27, 28, 29, 30, 31] rr19
    = rootLoop [fLit] ehTabL 3 [20, 21, 22, 23, 24, 25, 26, 27, 28, 29, 30, 31] rr20 := by
  rw [rootLoop_cons]
  congr 1

set_option maxRecDepth 400000 in
set_option maxHeartbeats 1600000 in
theorem rs20 : rootLoop [fLit] ehTabL 3 [20, 21, 22, 23, 24, 25, 26, 27, 28, 29, 30, 31] rr20
    = rootLoop [fLit] ehTabL 3 [21, 22, 23, 24, 25, 26, 27, 28, 29, 30, 31] rr21 := by
  rw [rootLoop_cons]
  congr 1

set_option maxRecDepth 400000 in
set_option maxHeartbeats 1600000 in
theorem rs21 : rootLoop [fLit] ehTabL 3 [21, 22, 23, 24, 25, 26, 27, 28, 29, 30, 31] rr21
    = rootLoop [fLit] ehTabL 3 [22, 23, 24, 25, 26, 27, 28, 29, 30, 31] rr22 := by
  rw [rootLoop_cons]
  congr 1

set_option maxRecDepth 400000 in
set_option maxHeartbeats 1600000 in
theorem rs22 : rootLoop [fLit] ehTabL 3 [22, 23, 24, 25, 26, 27, 28, 29, 30, 31] rr22
    = rootLoop [fLit] ehTabL 3 [23, 24, 25, 26, 27, 28, 29, 30, 31] rr23 := by
  rw [rootLoop_cons]
  congr 1

set_option maxRecDepth 400000 in
set_option maxHeartbeats 1600000 in
theorem rs23 : rootLoop [fLit] ehTabL 3 [23, 24, 25, 26, 27, 28, 29, 30, 31] rr23
    = rootLoop [fLit] ehTabL 3 [24, 25, 26, 27, 28, 29, 30, 31] rr24 := by
  rw [rootLoop_cons]
  congr 1

set_option maxRecDepth 400000 in
set_option maxHeartbeats 1600000 in
theorem rs24 : rootLoop [fLit] ehTabL 3 [24, 25, 26, 27, 28, 29, 30, 31] rr24
    = rootLoop [fLit] ehTabL 3 [25, 26, 27, 28, 29, 30, 31] rr25 := by
  rw [rootLoop_cons]
  congr 1

set_option maxRecDepth 400000 in
set_option maxHeartbeats 1600000 in
theorem rs25 : rootLoop [fLit] ehTabL 3 [25, 26, 27, 28, 29, 30, 31] rr25
    = rootLoop [fLit] ehTabL 3 [26, 27, 28, 29, 30, 31] rr26 := by
  rw [rootLoop_cons]
  congr 1

set_option maxRecDepth 400000 in
set_option maxHeartbeats 1600000 in
theorem rs26 : rootLoop [fLit] ehTabL 3 [26, 27, 28, 29, 30, 31] rr26
    = rootLoop [fLit] ehTabL 3 [27, 28, 29, 30, 31] rr27 := by
  rw [rootLoop_cons]
  congr 1

set_option maxRecDepth 400000 in
set_option maxHeartbeats 1600000 in
theorem rs27 : rootLoop [fLit] ehTabL 3 [27, 28, 29, 30, 31] rr27
    = rootLoop [fLit] ehTabL 3 [28, 29, 30, 31] rr28 := by
  rw [rootLoop_cons]
  congr 1

set_option maxRecDepth 400000 in
set_option maxHeartbeats 1600000 in
theorem rs28 : rootLoop [fLit] ehTabL 3 [28, 29, 30, 31] rr28
    = rootLoop [fLit] ehTabL 3 [29, 30, 31] rr29 := by
  rw [rootLoop_cons]
  congr 1

set_option maxRecDepth 400000 in
set_option maxHeartbeats 1600000 in
theorem rs29 : rootLoop [fLit] ehTabL 3 [29, 30, 31] rr29
    = rootLoop [fLit] ehTabL 3 [30, 31] rr30 := by
  rw [rootLoop_cons]
  congr 1

set_option maxRecDepth 400000 in
set_option maxHeartbeats 1600000 in
theorem rs30 : rootLoop [fLit] ehTabL 3 [30, 31] rr30
    = rootLoop [fLit] ehTabL 3 [31] rr31 := by
  rw [rootLoop_cons]
  congr 1

set_option maxRecDepth 400000 in
set_option maxHeartbeats 1600000 in
theorem rs31 : rootLoop [fLit] ehTabL 3 [31] rr31
    = rootLoop [fLit] ehTabL 3 [] rr32 := by
  rw [rootLoop_cons]
  congr 1

set_option maxRecDepth 400000 in
set_option maxHeartbeats 1600000 in
theorem rootEval : tree4L.root = ⟨rr32⟩ := by
  have h0 : tree4L.root = ⟨rootLoop [fLit] ehTabL 3 [0, 1, 2, 3, 4, 5, 6, 7, 8, 9, 10, 11, 12, 13, 14, 15, 16, 17, 18, 19, 20, 21, 22, 23, 24, 25, 26, 27, 28, 29, 30, 31] fLit⟩ := rfl
  rw [h0, rs0, rs1, rs2, rs3, rs4, rs5, rs6, rs7, rs8, rs9, rs10, rs11, rs12, rs13, rs14, rs15, rs16, rs17, rs18, rs19, rs20, rs21, rs22, rs23, rs24, rs25, rs26, rs27, rs28, rs29, rs30, rs31]
  rfl

set_option maxRecDepth 400000 in
set_option maxHeartbeats 1600000 in
theorem vs0 : verifyFold pathLit 2 (testLeaf 3)
    = verifyFold [eh1, eh2, eh3, eh4, eh5, eh6, eh7, eh8, eh9, eh10, eh11, eh12, eh13, eh14, eh15, eh16, eh17, eh18, eh19, eh20, eh21, eh22, eh23, eh24, eh25, eh26, eh27, eh28, eh29, eh30, eh31] 1 vv1 := by
  rw [show pathLit = fLit :: [eh1, eh2, eh3, eh4, eh5, eh6, eh7, eh8, eh9, eh10, eh11, eh12, eh13, eh14, eh15, eh16, eh17, eh18, eh19, eh20, eh21, eh22, eh23, eh24, eh25, eh26, eh27, eh28, eh29, eh30, eh31] from rfl]
  rw [verifyFold_cons]
  congr 1

set_option maxRecDepth 400000 in
set_option maxHeartbeats 1600000 in
theorem vs1 : verifyFold [eh1, eh2, eh3, eh4, eh5, eh6, eh7, eh8, eh9, eh10, eh11, eh12, eh13, eh14, eh15, eh16, eh17, eh18, eh19, eh20, eh21, eh22, eh23, eh24, eh25, eh26, eh27, eh28, eh29, eh30, eh31] 1 vv1
    = verifyFold [eh2, eh3, eh4, eh5, eh6, eh7, eh8, eh9, eh10, eh11, eh12, eh13, eh14, eh15, eh16, eh17, eh18, eh19, eh20, eh21, eh22, eh23, eh24, eh25, eh26, eh27, eh28, eh29, eh30, eh31] 0 vv2 := by
  rw [verifyFold_cons]
  congr 1

set_option maxRecDepth 400000 in
set_option maxHeartbeats 1600000 in
theorem vs2 : verifyFold [eh2, eh3, eh4, eh5, eh6, eh7, eh8, eh9, eh10, eh11, eh12, eh13, eh14, eh15, eh16, eh17, eh18, eh19, eh20, eh21, eh22, eh23, eh24, eh25, eh26, eh27, eh28, eh29, eh30, eh31] 0 vv2
    = verifyFold [eh3, eh4, eh5, eh6, eh7, eh8, eh9, eh10, eh11, eh12, eh13, eh14, eh15, eh16, eh17, eh18, eh19, eh20, eh21, eh22, eh23, eh24, eh25, eh26, eh27, eh28, eh29, eh30, eh31] 0 vv3 := by
  rw [verifyFold_cons]
  congr 1

set_option maxRecDepth 400000 in
set_option maxHeartbeats 1600000 in
theorem vs3 : verifyFold [eh3, eh4, eh5, eh6, eh7, eh8, eh9, eh10, eh11, eh12, eh13, eh14, eh15, eh16, eh17, eh18, eh19, eh20, eh21, eh22, eh23, eh24, eh25, eh26, eh27, eh28, eh29, eh30, eh31] 0 vv3
    = verifyFold [eh4, eh5, eh6, eh7, eh8, eh9, eh10, eh11, eh12, eh13, eh14, eh15, eh16, eh17, eh18, eh19, eh20, eh21, eh22, eh23, eh24, eh25, eh26, eh27, eh28, eh29, eh30, eh31] 0 vv4 := by
  rw [verifyFold_cons]
  congr 1

set_option maxRecDepth 400000 in
set_option maxHeartbeats 1600000 in
theorem vs4 : verifyFold [eh4, eh5, eh6, eh7, eh8, eh9, eh10, eh11, eh12, eh13, eh14, eh15, eh16, eh17, eh18, eh19, eh20, eh21, eh22, eh23, eh24, eh25, eh26, eh27, eh28, eh29, eh30, eh31] 0 vv4
    = verifyFold [eh5, eh6, eh7, eh8, eh9, eh10, eh11, eh12, eh13, eh14, eh15, eh16, eh17, eh18, eh19, eh20, eh21, eh22, eh23, eh24, eh25, eh26, eh27, eh28, eh29, eh30, eh31] 0 vv5 := by
  rw [verifyFold_cons]
  congr 1

set_option maxRecDepth 400000 in
set_option maxHeartbeats 1600000 in
theorem vs5 : verifyFold [eh5, eh6, eh7, eh8, eh9, eh10, eh11, eh12, eh13, eh14, eh15, eh16, eh17, eh18, eh19, eh20, eh21, eh22, eh23, eh24, eh25, eh26, eh27, eh28, eh29, eh30, eh31] 0 vv5
    = verifyFold [eh6, eh7, eh8, eh9, eh10, eh11, eh12, eh13, eh14, eh15, eh16, eh17, eh18, eh19, eh20, eh21, eh22, eh23, eh24, eh25, eh26, eh27, eh28, eh29, eh30, eh31] 0 vv6 := by
  rw [verifyFold_cons]
  congr 1

set_option maxRecDepth 400000 in
set_option maxHeartbeats 1600000 in
theorem vs6 : verifyFold [eh6, eh7, eh8, eh9, eh10, eh11, eh12, eh13, eh14, eh15, eh16, eh17, eh18, eh19, eh20, eh21, eh22, eh23, eh24, eh25, eh26, eh27, eh28, eh29, eh30, eh31] 0 vv6
    = verifyFold [eh7, eh8, eh9, eh10, eh11, eh12, eh13, eh14, eh15, eh16, eh17, eh18, eh19, eh20, eh21, eh22, eh23, eh24, eh25, eh26, eh27, eh28, eh29, eh30, eh31] 0 vv7 := by
  rw [verifyFold_cons]
  congr 1

set_option maxRecDepth 400000 in
set_option maxHeartbeats 1600000 in
theorem vs7 : verifyFold [eh7, eh8, eh9, eh10, eh11, eh12, eh13, eh14, eh15, eh16, eh17, eh18, eh19, eh20, eh21, eh22, eh23, eh24, eh25, eh26, eh27, eh28, eh29, eh30, eh31] 0 vv7
    = verifyFold [eh8, eh9, eh10, eh11, eh12, eh13, eh14, eh15, eh16, eh17, eh18, eh19, eh20, eh21, eh22, eh23, eh24, eh25, eh26, eh27, eh28, eh29, eh30, eh31] 0 vv8 := by
  rw [verifyFold_cons]
  congr 1

set_option maxRecDepth 400000 in
set_option maxHeartbeats 1600000 in
theorem vs8 : verifyFold [eh8, eh9, eh10, eh11, eh12, eh13, eh14, eh15, eh16, eh17, eh18, eh19, eh20, eh21, eh22, eh23, eh24, eh25, eh26, eh27, eh28, eh29, eh30, eh31] 0 vv8
    = verifyFold [eh9, eh10, eh11, eh12, eh13, eh14, eh15, eh16, eh17, eh18, eh19, eh20, eh21, eh22, eh23, eh24, eh25, eh26, eh27, eh28, eh29, eh30, eh31] 0 vv9 := by
  rw [verifyFold_cons]
  congr 1

set_option maxRecDepth 400000 in
set_option maxHeartbeats 1600000 in
theorem vs9 : verifyFold [eh9, eh10, eh11, eh12, eh13, eh14, eh15, eh16, eh17, eh18, eh19, eh20, eh21, eh22, eh23, eh24, eh25, eh26, eh27, eh28, eh29, eh30, eh31] 0 vv9
    = verifyFold [eh10, eh11, eh12, eh13, eh14, eh15, eh16, eh17, eh18, eh19, eh20, eh21, eh22, eh23, eh24, eh25, eh26, eh27, eh28, eh29, eh30, eh31] 0 vv10 := by
  rw [verifyFold_cons]
  congr 1

set_option maxRecDepth 400000 in
set_option maxHeartbeats 1600000 in
theorem vs10 : verifyFold [eh10, eh11, eh12, eh13, eh14, eh15, eh16, eh17, eh18, eh19, eh20, eh21, eh22, eh23, eh24, eh25, eh26, eh27, eh28, eh29, eh30, eh31] 0 vv10
    = verifyFold [eh11, eh12, eh13, eh14, eh15, eh16, eh17, eh18, eh19, eh20, eh21, eh22, eh23, eh24, eh25, eh26, eh27, eh28, eh29, eh30, eh31] 0 vv11 := by
  rw [verifyFold_cons]
  congr 1

set_option maxRecDepth 400000 in
set_option maxHeartbeats 1600000 in
theorem vs11 : verifyFold [eh11, eh12, eh13, eh14, eh15, eh16, eh17, eh18, eh19, eh20, eh21, eh22, eh23, eh24, eh25, eh26, eh27, eh28, eh29, eh30, eh31] 0 vv11
    = verifyFold [eh12, eh13, eh14, eh15, eh16, eh17, eh18, eh19, eh20, eh21, eh22, eh23, eh24, eh25, eh26, eh27, eh28, eh29, eh30, eh31] 0 vv12 := by
  rw [verifyFold_cons]
  congr 1

set_option maxRecDepth 400000 in
set_option maxHeartbeats 1600000 in
theorem vs12 : verifyFold [eh12, eh13, eh14, eh15, eh16, eh17, eh18, eh19, eh20, eh21, eh22, eh23, eh24, eh25, eh26, eh27, eh28, eh29, eh30, eh31] 0 vv12
    = verifyFold [eh13, eh14, eh15, eh16, eh17, eh18, eh19, eh20, eh21, eh22, eh23, eh24, eh25, eh26, eh27, eh28, eh29, eh30, eh31] 0 vv13 := by
  rw [verifyFold_cons]
  congr 1

set_option maxRecDepth 400000 in
set_option maxHeartbeats 1600000 in
theorem vs13 : verifyFold [eh13, eh14, eh15, eh16, eh17, eh18, eh19, eh20, eh21, eh22, eh23, eh24, eh25, eh26, eh27, eh28, eh29, eh30, eh31] 0 vv13
    = verifyFold [eh14, eh15, eh16, eh17, eh18, eh19, eh20, eh21, eh22, eh23, eh24, eh25, eh26, eh27, eh28, eh29, eh30, eh31] 0 vv14 := by
  rw [verifyFold_cons]
  congr 1

set_option maxRecDepth 400000 in
set_option maxHeartbeats 1600000 in
theorem vs14 : verifyFold [eh14, eh15, eh16, eh17, eh18, eh19, eh20, eh21, eh22, eh23, eh24, eh25, eh26, eh27, eh28, eh29, eh30, eh31] 0 vv14
    = verifyFold [eh15, eh16, eh17, eh18, eh19, eh20, eh21, eh22, eh23, eh24, eh25, eh26, eh27, eh28, eh29, eh30, eh31] 0 vv15 := by
  rw [verifyFold_cons]
  congr 1

set_option maxRecDepth 400000 in
set_option maxHeartbeats 1600000 in
theorem vs15 : verifyFold [eh15, eh16, eh17, eh18, eh19, eh20, eh21, eh22, eh23, eh24, eh25, eh26, eh27, eh28, eh29, eh30, eh31] 0 vv15
    = verifyFold [eh16, eh17, eh18, eh19, eh20, eh21, eh22, eh23, eh24, eh25, eh26, eh27, eh28, eh29, eh30, eh31] 0 vv16 := by
  rw [verifyFold_cons]
  congr 1

set_option maxRecDepth 400000 in
set_option maxHeartbeats 1600000 in
theorem vs16 : verifyFold [eh16, eh17, eh18, eh19, eh20, eh21, eh22, eh23, eh24, eh25, eh26, eh27, eh28, eh29, eh30, eh31] 0 vv16
    = verifyFold [eh17, eh18, eh19, eh20, eh21, eh22, eh23, eh24, eh25, eh26, eh27, eh28, eh29, eh30, eh31] 0 vv17 := by
  rw [verifyFold_cons]
  congr 1

set_option maxRecDepth 400000 in
set_option maxHeartbeats 1600000 in
theorem vs17 : verifyFold [eh17, eh18, eh19, eh20, eh21, eh22, eh23, eh24, eh25, eh26, eh27, eh28, eh29, eh30, eh31] 0 vv17
    = verifyFold [eh18, eh19, eh20, eh21, eh22, eh23, eh24, eh25, eh26, eh27, eh28, eh29, eh30, eh31] 0 vv18 := by
  rw [verifyFold_cons]
  congr 1

set_option maxRecDepth 400000 in
set_option maxHeartbeats 1600000 in
theorem vs18 : verifyFold [eh18, eh19, eh20, eh21, eh22, eh23, eh24, eh25, eh26, eh27, eh28, eh29, eh30, eh31] 0 vv18
    = verifyFold [eh19, eh20, eh21, eh22, eh23, eh24, eh25, eh26, eh27, eh28, eh29, eh30, eh31] 0 vv19 := by
  rw [verifyFold_cons]
  congr 1

set_option maxRecDepth 400000 in
set_option maxHeartbeats 1600000 in
theorem vs19 : verifyFold [eh19, eh20, eh21, eh22, eh23, eh24, eh25, eh26, eh27, eh28, eh29, eh30, eh31] 0 vv19
    = verifyFold [eh20, eh21, eh22, eh23, eh24, eh25, eh26, eh27, eh28, eh29, eh30, eh31] 0 vv20 := by
  rw [verifyFold_cons]
  congr 1

set_option maxRecDepth 400000 in
set_option maxHeartbeats 1600000 in
theorem vs20 : verifyFold [eh20, eh21, eh22, eh23, eh24, eh25, eh26, eh27, eh28, eh29, eh30, eh31] 0 vv20
    = verifyFold [eh21, eh22, eh23, eh24, eh25, eh26, eh27, eh28, eh29, eh30, eh31] 0 vv21 := by
  rw [verifyFold_cons]
  congr 1

set_option maxRecDepth 400000 in
set_option maxHeartbeats 1600000 in
theorem vs21 : verifyFold [eh21, eh22, eh23, eh24, eh25, eh26, eh27, eh28, eh29, eh30, eh31] 0 vv21
    = verifyFold [eh22, eh23, eh24, eh25, eh26, eh27, eh28, eh29, eh30, eh31] 0 vv22 := by
  rw [verifyFold_cons]
  congr 1

set_option maxRecDepth 400000 in
set_option maxHeartbeats 1600000 in
theorem vs22 : verifyFold [eh22, eh23, eh24, eh25, eh26, eh27, eh28, eh29, eh30, eh31] 0 vv22
    = verifyFold [eh23, eh24, eh25, eh26, eh27, eh28, eh29, eh30, eh31] 0 vv23 := by
  rw [verifyFold_cons]
  congr 1

set_option maxRecDepth 400000 in
set_option maxHeartbeats 1600000 in
theorem vs23 : verifyFold [eh23, eh24, eh25, eh26, eh27, eh28, eh29, eh30, eh31] 0 vv23
    = verifyFold [eh24, eh25, eh26, eh27, eh28, eh29, eh30, eh31] 0 vv24 := by
  rw [verifyFold_cons]
  congr 1

set_option maxRecDepth 400000 in
set_option maxHeartbeats 1600000 in
theorem vs24 : verifyFold [eh24, eh25, eh26, eh27, eh28, eh29, eh30, eh31] 0 vv24
    = verifyFold [eh25, eh26, eh27, eh28, eh29, eh30, eh31] 0 vv25 := by
  rw [verifyFold_cons]
  congr 1

set_option maxRecDepth 400000 in
set_option maxHeartbeats 1600000 in
theorem vs25 : verifyFold [eh25, eh26, eh27, eh28, eh29, eh30, eh31] 0 vv25
    = verifyFold [eh26, eh27, eh28, eh29, eh30, eh31] 0 vv26 := by
  rw [verifyFold_cons]
  congr 1

set_option maxRecDepth 400000 in
set_option maxHeartbeats 1600000 in
theorem vs26 : verifyFold [eh26, eh27, eh28, eh29, eh30, eh31] 0 vv26
    = verifyFold [eh27, eh28, eh29, eh30, eh31] 0 vv27 := by
  rw [verifyFold_cons]
  congr 1

set_option maxRecDepth 400000 in
set_option maxHeartbeats 1600000 in
theorem vs27 : verifyFold [eh27, eh28, eh29, eh30, eh31] 0 vv27
    = verifyFold [eh28, eh29, eh30, eh31] 0 vv28 := by
  rw [verifyFold_cons]
  congr 1

set_option maxRecDepth 400000 in
set_option maxHeartbeats 1600000 in
theorem vs28 : verifyFold [eh28, eh29, eh30, eh31] 0 vv28
    = verifyFold [eh29, eh30, eh31] 0 vv29 := by
  rw [verifyFold_cons]
  congr 1

set_option maxRecDepth 400000 in
set_option maxHeartbeats 1600000 in
theorem vs29 : verifyFold [eh29, eh30, eh31] 0 vv29
    = verifyFold [eh30, eh31] 0 vv30 := by
  rw [verifyFold_cons]
  congr 1

set_option maxRecDepth 400000 in
set_option maxHeartbeats 1600000 in
theorem vs30 : verifyFold [eh30, eh31] 0 vv30
    = verifyFold [eh31] 0 vv31 := by
  rw [verifyFold_cons]
  congr 1

set_option maxRecDepth 400000 in
set_option maxHeartbeats 1600000 in
theorem vs31 : verifyFold [eh31] 0 vv31
    = verifyFold [] 0 vv32 := by
  rw [verifyFold_cons]
  congr 1

end Privl1

namespace Privl1

/-- C1: `spend_batch(ns)` is atomic: it succeeds — and marks every element
of `ns` spent — exactly when no element of `ns` (duplicates included, all
checked against the pre-call set before any insertion) is already spent;
when it fails the set is returned completely unchanged, with the same
cardinality and the same membership. -/
theorem spend_batch_atomic (s : NullifierSet) (ns : List Nullifier) :
    ((s.spend_batch ns).2 = .ok () ↔ ∀ n ∈ ns, s.is_spent n = false)
    ∧ ((s.spend_batch ns).2 = .ok () →
        ∀ n ∈ ns, (s.spend_batch ns).1.is_spent n = true)
    ∧ (∀ e, (s.spend_batch ns).2 = .error e →
        (s.spend_batch ns).1 = s ∧ (s.spend_batch ns).1.len = s.len ∧
        ∀ n, (s.spend_batch ns).1.is_spent n = s.is_spent n) := by
  unfold NullifierSet.spend_batch
  cases h : ns.find? (fun n => s.is_spent n) with
  | none =>
    have hnone := List.find?_eq_none.mp h
    refine ⟨⟨fun _ n hn => ?_, fun _ => rfl⟩, fun _ n hn => ?_, fun e he => ?_⟩
    · exact Bool.not_eq_true _ ▸ (by simpa using hnone n hn)
    · simp [NullifierSet.is_spent, mem_foldl_insert, hn]
    · simp at he
  | some n =>
    have hmem := List.mem_of_find?_eq_some h
    have hspent : s.is_spent n = true := List.find?_some h
    refine ⟨⟨fun hok => ?_, fun hall => ?_⟩, fun hok => ?_, fun e _ => ⟨rfl, rfl, fun _ => rfl⟩⟩
    · simp at hok
    · exact absurd hspent (by simp [hall n hmem])
    · simp at hok

/-- Witness for C1: spending a clean two-element batch in the empty set
succeeds and marks both spent. -/
theorem spend_batch_atomic_witness :
    (NullifierSet.new.spend_batch [nEx, nEx2]).2 = .ok () ∧
    (NullifierSet.new.spend_batch [nEx, nEx2]).1.is_spent nEx = true := by
  have hall : ∀ n ∈ [nEx, nEx2], NullifierSet.new.is_spent n = false := by decide
  have hok := (spend_batch_atomic NullifierSet.new [nEx, nEx2]).1.mpr hall
  exact ⟨hok, (spend_batch_atomic NullifierSet.new [nEx, nEx2]).2.1 hok nEx (by simp)⟩

/-- C4 (amended): `spend(n)` on an already-present nullifier fails with the
`OperationFailed` catch-all error kind (message "Double spend detected") —
the `CryptoError` enum has no `DoubleSpend` variant — and returns the set
unchanged; on a fresh nullifier it succeeds and `is_spent(n)` then holds. -/
theorem spend_rejects_double_spend (s : NullifierSet) (n : Nullifier) :
    (s.is_spent n = true →
      s.spend n = (s, .error (CryptoError.OperationFailed ("Double spend detected"))))
    ∧ (s.is_spent n = false →
      (s.spend n).2 = .ok () ∧ (s.spend n).1.is_spent n = true) := by
  unfold NullifierSet.spend
  constructor
  · intro h
    simp [h]
  · intro h
    have hnot : ¬ n ∈ s.spent := by simpa [NullifierSet.is_spent] using h
    simp [NullifierSet.is_spent, hnot]

/-- Counterexample for C4: spending the already-present `nEx` returns the
`OperationFailed` variant — the error enum embedded from `lib.rs` contains
no `DoubleSpend` kind for it to fail with — and leaves the set unchanged. -/
theorem spend_error_kind_counterexample :
    (sEx.spend nEx).2 = .error (CryptoError.OperationFailed ("Double spend detected")) ∧
    (sEx.spend nEx).1 = sEx := by
  constructor
  · rfl
  · rfl

/-- Witness for C4 (amended): both branches at concrete inputs. -/
theorem spend_rejects_double_spend_witness :
    sEx.is_spent nEx = true ∧
    (sEx.spend nEx).2 = .error (CryptoError.OperationFailed ("Double spend detected")) ∧
    NullifierSet.new.is_spent nEx2 = false ∧
    (NullifierSet.new.spend nEx2).2 = .ok () ∧
    (NullifierSet.new.spend nEx2).1.is_spent nEx2 = true := by
  have h1 : sEx.is_spent nEx = true := by decide
  have h2 : NullifierSet.new.is_spent nEx2 = false := by decide
  have hfail := (spend_rejects_double_spend sEx nEx).1 h1
  have hok := (spend_rejects_double_spend NullifierSet.new nEx2).2 h2
  exact ⟨h1, by rw [hfail], h2, hok.1, hok.2⟩

end Privl1

namespace Privl1

/-- C3: commitment homomorphism over the algebraic interface of the curve
library: for `u64` values and arbitrary blinding scalars,
`commit(v1,r1) + commit(v2,r2) = commit(v1+v2, r1+r2)`, and subtraction of
commitments corresponds to subtraction of the `(value, blinding)` pairs. -/
theorem commitment_homomorphic {G : Type} [AddCommGroup G] [Module (ZMod qScalar) G]
    (pc : PedersenCommitment G) (v1 v2 : ℕ) (r1 r2 : Scalar)
    (h1 : v1 < 2 ^ 64) (h2 : v2 < 2 ^ 64) :
    pc.commit_with_blinding v1 r1 + pc.commit_with_blinding v2 r2
      = pc.commit_with_blinding (v1 + v2) (r1 + r2)
    ∧ (v2 ≤ v1 →
      pc.commit_with_blinding v1 r1 - pc.commit_with_blinding v2 r2
        = pc.commit_with_blinding (v1 - v2) (r1 - r2)) := by
  constructor
  · rw [Commitment.add_point]
    unfold PedersenCommitment.commit_with_blinding
    simp only [Commitment.mk.injEq]
    push_cast
    rw [add_smul, add_smul]
    abel
  · intro hle
    rw [Commitment.sub_point]
    unfold PedersenCommitment.commit_with_blinding
    simp only [Commitment.mk.injEq]
    rw [Nat.cast_sub hle, sub_smul, sub_smul]
    abel

/-- Witness for C3 at concrete values in the concrete group model. -/
theorem commitment_homomorphic_witness :
    (5 : ℕ) < 2 ^ 64 ∧ (3 : ℕ) < 2 ^ 64 ∧ (3 : ℕ) ≤ 5 ∧
    pcW.commit_with_blinding 5 7 + pcW.commit_with_blinding 3 11
      = pcW.commit_with_blinding (5 + 3) (7 + 11) ∧
    pcW.commit_with_blinding 5 7 - pcW.commit_with_blinding 3 11
      = pcW.commit_with_blinding (5 - 3) (7 - 11) :=
  ⟨by norm_num, by norm_num, by norm_num,
   (commitment_homomorphic pcW 5 3 7 11 (by norm_num) (by norm_num)).1,
   (commitment_homomorphic pcW 5 3 7 11 (by norm_num) (by norm_num)).2 (by norm_num)⟩

/-- C8: `verify_halo2(p)` fails with `InvalidProof` exactly when no
verification key is registered under `p`'s declared `vk_id`; after
registering a key whose id equals `p.vk_id`, the lookup succeeds and
`InvalidProof` is no longer raised for `p`. -/
theorem verify_halo2_registry (v : ProofVerifier) (p : Halo2Proof) :
    (v.verify_halo2 p = .error CryptoError.InvalidProof ↔ v.vks p.vk_id = none)
    ∧ ∀ vk : VerificationKey, vk.id = p.vk_id →
        (v.register_vk vk).verify_halo2 p ≠ .error CryptoError.InvalidProof := by
  constructor
  · unfold ProofVerifier.verify_halo2
    cases h : v.vks p.vk_id with
    | none => simp
    | some vk => simp [Halo2Proof.verify]
  · intro vk hid
    simp [ProofVerifier.verify_halo2, ProofVerifier.register_vk, hid, Halo2Proof.verify]

/-- Witness for C8: with a fresh verifier the lookup fails with
`InvalidProof`; after registering `vkEx` the proof declaring its id no
longer fails with `InvalidProof`. -/
theorem verify_halo2_registry_witness :
    vkEx.id = halo2Ex.vk_id ∧
    ProofVerifier.new.verify_halo2 halo2Ex = .error CryptoError.InvalidProof ∧
    (ProofVerifier.new.register_vk vkEx).verify_halo2 halo2Ex ≠
      .error CryptoError.InvalidProof :=
  ⟨rfl, (verify_halo2_registry ProofVerifier.new halo2Ex).1.mpr rfl,
   (verify_halo2_registry ProofVerifier.new halo2Ex).2 vkEx rfl⟩

/-- C9 (amended): `is_dummy` returns true exactly when the note has value 0
and the zero blinding scalar — it does not inspect the asset id, owner,
memo or cached commitment — and it accepts the canonical `dummy()` note. -/
theorem is_dummy_checks_value_and_blinding {G : Type} [AddCommGroup G]
    [Module (ZMod qScalar) G] (n : Note G) :
    (n.is_dummy = true ↔ n.value = 0 ∧ n.randomness = Scalar.zero)
    ∧ (Note.dummy (G := G)).is_dummy = true := by
  constructor
  · simp [Note.is_dummy]
  · simp [Note.is_dummy, Note.dummy]

/-- Counterexample for C9: `noteC9` has a nonzero asset id, so it differs
from the canonical dummy form in a field, yet `is_dummy` returns true. -/
theorem is_dummy_ignores_asset_id :
    noteC9.asset_id ≠ (Note.dummy (G := ZMod qScalar)).asset_id ∧
    noteC9.is_dummy = true := by
  constructor
  · decide
  · rfl

/-- Witness for C9 (amended): extracting the characterization at `noteC9`. -/
theorem is_dummy_checks_value_and_blinding_witness :
    noteC9.value = 0 ∧ noteC9.randomness = Scalar.zero :=
  (is_dummy_checks_value_and_blinding noteC9).1.mp (by rfl)

/-- C10: seed-based key derivation is total (the functions return keys, not
results) and fails open: whenever the domain-separated digest is not a
canonical scalar encoding, `unwrap_or` silently substitutes the zero
scalar instead of reporting an error. -/
theorem key_derivation_fails_open (seed : List ℕ) (k : SpendingKey) :
    (∀ e, Scalar.from_bytes (domainHash ("PRIVL1_SPENDING_KEY") seed) = .error e →
      (SpendingKey.from_seed seed).sk = Scalar.zero)
    ∧ (∀ e, Scalar.from_bytes (domainHash ("PRIVL1_NULLIFIER_KEY") seed) = .error e →
      (NullifierDerivingKey.from_seed seed).nk = Scalar.zero)
    ∧ (∀ e, Scalar.from_bytes (domainHash ("PRIVL1_DERIVE_IVK") k.sk.to_bytes) = .error e →
      (ViewingKey.derive_from_spending_key k).ivk = Scalar.zero)
    ∧ (∀ e, Scalar.from_bytes (domainHash ("PRIVL1_DERIVE_OVK") k.sk.to_bytes) = .error e →
      (ViewingKey.derive_from_spending_key k).ovk = Scalar.zero) := by
  refine ⟨fun e h => ?_, fun e h => ?_, fun e h => ?_, fun e h => ?_⟩ <;>
    simp [SpendingKey.from_seed, NullifierDerivingKey.from_seed,
      ViewingKey.derive_from_spending_key, h]

set_option maxRecDepth 100000 in
/-- Witness for C10: the all-zero seed produces non-canonical spending-key
and nullifier-key digests, and the spending key encoding to `[1u8; 32]`
produces non-canonical IVK and OVK digests; all four derived keys silently
become the zero scalar. -/
theorem key_derivation_fails_open_witness :
    Scalar.from_bytes (domainHash ("PRIVL1_SPENDING_KEY") seedZ)
      = .error CryptoError.InvalidKey ∧
    (SpendingKey.from_seed seedZ).sk = Scalar.zero ∧
    Scalar.from_bytes (domainHash ("PRIVL1_NULLIFIER_KEY") seedZ)
      = .error CryptoError.InvalidKey ∧
    (NullifierDerivingKey.from_seed seedZ).nk = Scalar.zero ∧
    Scalar.from_bytes (domainHash ("PRIVL1_DERIVE_IVK") skOnes.sk.to_bytes)
      = .error CryptoError.InvalidKey ∧
    (ViewingKey.derive_from_spending_key skOnes).ivk = Scalar.zero ∧
    Scalar.from_bytes (domainHash ("PRIVL1_DERIVE_OVK") skOnes.sk.to_bytes)
      = .error CryptoError.InvalidKey ∧
    (ViewingKey.derive_from_spending_key skOnes).ovk = Scalar.zero := by
  have h1 : Scalar.from_bytes (domainHash ("PRIVL1_SPENDING_KEY") seedZ)
      = .error CryptoError.InvalidKey := by rfl
  have h2 : Scalar.from_bytes (domainHash ("PRIVL1_NULLIFIER_KEY") seedZ)
      = .error CryptoError.InvalidKey := by rfl
  have h3 : Scalar.from_bytes (domainHash ("PRIVL1_DERIVE_IVK") skOnes.sk.to_bytes)
      = .error CryptoError.InvalidKey := by rfl
  have h4 : Scalar.from_bytes (domainHash ("PRIVL1_DERIVE_OVK") skOnes.sk.to_bytes)
      = .error CryptoError.InvalidKey := by rfl
  exact ⟨h1, (key_derivation_fails_open seedZ skOnes).1 _ h1,
    h2, (key_derivation_fails_open seedZ skOnes).2.1 _ h2,
    h3, (key_derivation_fails_open seedZ skOnes).2.2.1 _ h3,
    h4, (key_derivation_fails_open seedZ skOnes).2.2.2 _ h4⟩

end Privl1

namespace Privl1

set_option maxRecDepth 400000 in
set_option maxHeartbeats 1600000 in
/-- C2 fails on the code: in the tree holding the four leaves of the crate's
own `test_multiple_leaves` test (N = 4), the proof for position k = 2
already fails to verify against the current root (M = 0).  The `cached_roots`
map is never populated and `get_node` falls back to frontier entries or
empty-subtree hashes, so authentication paths in multi-leaf trees are wrong. -/
theorem merkle_proof_fails_to_verify :
    tree4.num_leaves = 4 ∧
    (tree4.prove 2).map (fun p => p.verify (testLeaf 3) tree4.root) = .ok false := by
  refine ⟨by rw [tree4_eq]; rfl, ?_⟩
  rw [tree4_eq]
  have hprove : tree4L.prove 2 = .ok ⟨pathLit, 2⟩ := rfl
  rw [hprove]
  show Except.ok (MerkleProof.verify ⟨pathLit, 2⟩ (testLeaf 3) tree4L.root) = Except.ok false
  rw [rootEval]
  show Except.ok (verifyFold pathLit 2 (testLeaf 3) == rr32) = Except.ok false
  rw [vs0, vs1, vs2, vs3, vs4, vs5, vs6, vs7, vs8, vs9, vs10, vs11, vs12, vs13, vs14, vs15, vs16, vs17, vs18, vs19, vs20, vs21, vs22, vs23, vs24, vs25, vs26, vs27, vs28, vs29, vs30, vs31]
  have hvf : verifyFold [] 0 vv32 = vv32 := rfl
  rw [hvf]
  rfl

set_option maxRecDepth 400000 in
set_option maxHeartbeats 1600000 in
/-- C5 fails on the code: `derive_nullifier` hashes
`Commitment::to_bytes`, which returns `[0u8; 32]` for every commitment, so
two notes with different commitments (same key, same position) receive the
same nullifier — derivation is not injective in the note commitment. -/
theorem derive_nullifier_ignores_commitment :
    (noteA.commitment gen1).inner ≠ (noteB.commitment gen1).inner ∧
    nkEx.derive_nullifier gen1 noteA 5 = nkEx.derive_nullifier gen1 noteB 5 := by
  constructor
  · show (⟨1⟩ : Commitment (ZMod qScalar)) ≠ (⟨2⟩ : Commitment (ZMod qScalar))
    intro h
    have h2 : (1 : ZMod qScalar) = 2 := congrArg Commitment.point h
    exact absurd (congrArg ZMod.val h2) (by decide)
  · rfl

/-- C6 fails on the code: `Point::to_bytes` returns `[0u8; 32]` for every
point and `Point::from_bytes` returns `Ok(identity)` for every byte string
(likewise for `Commitment`), so `decode(encode(generator)) = identity ≠
generator` and no corrupted byte string is ever rejected. -/
theorem point_serialization_not_roundtrip :
    Point.to_bytes pointGenEx = List.replicate 32 0 ∧
    Point.from_bytes (G := ZMod qScalar) (Point.to_bytes pointGenEx) = .ok ⟨0⟩ ∧
    (⟨0⟩ : Point (ZMod qScalar)) ≠ pointGenEx ∧
    Commitment.from_bytes (G := ZMod qScalar) (Commitment.to_bytes commitEx) = .ok ⟨0⟩ ∧
    (⟨0⟩ : Commitment (ZMod qScalar)) ≠ commitEx ∧
    (∀ bytes : List ℕ, Point.from_bytes (G := ZMod qScalar) bytes = .ok ⟨0⟩) := by
  refine ⟨rfl, rfl, by decide, rfl, by decide, fun _ => rfl⟩

/-- C7 fails on the code: `PublicKey::verify` returns `true` unconditionally,
for the honest signature, for a different message under the same signature,
and for a forged all-zero signature alike. -/
theorem signature_verify_always_true :
    pkEx.verify msgEx sigEx = true ∧
    pkEx.verify (strBytes ("a different message")) sigEx = true ∧
    pkEx.verify msgEx ⟨⟨0⟩, Scalar.zero⟩ = true :=
  ⟨rfl, rfl, rfl⟩

end Privl1
